import Mathlib

/-!
Verification development for the ScratchCard-Web repository.

The repository bundles two builds of `src/main.js` (a scratch-card
match-3 variant and a grid-mines variant) together with the mines game
engine `src/game/game.js`, a headless `Card` class, and the control
panel.  The definitions below are shallow embeddings of the relevant
source functions.  JavaScript's `Math.random()` outcomes are modelled by
oracle functions (`Nat → Nat` / `Nat → Bool`) supplied as parameters:
`Math.floor(Math.random() * n)` produces exactly the values `k % n` for
an arbitrary natural `k`, so quantifying over the oracle quantifies over
every possible outcome of the random source.
-/

/-! ### Random helpers from `src/main.js` (scratch-card build)

`pickRandom(array)` returns `null` on an empty array, otherwise the
element at a uniformly drawn index.  `shuffle(array)` is a Fisher–Yates
shuffle: for `i` from `length-1` down to `1`, draw `j ∈ [0, i]` and swap
entries `i` and `j`. -/

/-- Embedding of `pickRandom`: `r` is the drawn index material; the index
used is `r % array.length`, which ranges over exactly the values
`Math.floor(Math.random() * array.length)` can take. -/
def pickRandom (r : Nat) (l : List Nat) : Option Nat :=
  if l.isEmpty then none else some (l.getD (r % l.length) 0)

/-- One Fisher–Yates swap `[copy[i], copy[j]] = [copy[j], copy[i]]`. -/
def swapList (l : List Nat) (i j : Nat) : List Nat :=
  (l.set i (l.getD j 0)).set j (l.getD i 0)

/-- The Fisher–Yates loop of `shuffle`, counting `i` down to `0`;
`rand i` is the random draw used at loop index `i`. -/
def shuffleGo (rand : Nat → Nat) : List Nat → Nat → List Nat
  | l, 0 => l
  | l, i + 1 => shuffleGo rand (swapList l (i + 1) (rand (i + 1) % (i + 2))) i

/-- Embedding of `shuffle`. -/
def shuffle (rand : Nat → Nat) (l : List Nat) : List Nat :=
  shuffleGo rand l (l.length - 1)

/-! Helper lemmas about `List.set`, `List.getD` and counting. -/

theorem getD_set_ne (l : List Nat) (p q v : Nat) (h : q ≠ p) :
    (l.set p v).getD q 0 = l.getD q 0 := by
  induction l generalizing p q with
  | nil => simp
  | cons a t ih =>
    cases p with
    | zero =>
      cases q with
      | zero => exact absurd rfl h
      | succ q' => simp [List.getD]
    | succ p' =>
      cases q with
      | zero => simp [List.getD]
      | succ q' =>
        simp only [List.set, List.getD_cons_succ]
        exact ih p' q' (fun hq => h (congrArg Nat.succ hq))

theorem getD_replicate (n i v : Nat) (h : i < n) :
    (List.replicate n v).getD i 0 = v := by
  induction n generalizing i with
  | zero => omega
  | succ n ih =>
    cases i with
    | zero => simp [List.replicate]
    | succ i' =>
      simp only [List.replicate, List.getD_cons_succ]
      exact ih i' (by omega)

theorem getD_mem (l : List Nat) (i : Nat) (h : i < l.length) :
    l.getD i 0 ∈ l := by
  induction l generalizing i with
  | nil => simp at h
  | cons a t ih =>
    cases i with
    | zero => simp
    | succ i' =>
      simp only [List.getD_cons_succ]
      exact List.mem_cons_of_mem a (ih i' (by simpa using h))

/-- Additive form of how `List.set` changes occurrence counts. -/
theorem count_set_add (l : List Nat) (p : Nat) (hp : p < l.length) (v t : Nat) :
    (l.set p v).count t + (if l.getD p 0 = t then 1 else 0) =
      l.count t + (if v = t then 1 else 0) := by
  induction l generalizing p with
  | nil => simp at hp
  | cons a tl ih =>
    cases p with
    | zero =>
      simp only [List.set, List.getD_cons_zero, List.count_cons, beq_iff_eq]
      split_ifs <;> omega
    | succ p' =>
      have hp' : p' < tl.length := by simpa using hp
      have h2 := ih p' hp'
      simp only [List.set, List.getD_cons_succ, List.count_cons, beq_iff_eq]
      omega

/-- A swap of two in-range entries is a permutation. -/
theorem cons_set_perm (t : List Nat) (k : Nat) (hk : k < t.length) (a : Nat) :
    (t.getD k 0 :: t.set k a).Perm (a :: t) := by
  induction t generalizing k with
  | nil => simp at hk
  | cons b s ih =>
    cases k with
    | zero =>
      simp only [List.getD_cons_zero, List.set]
      exact List.Perm.swap a b s
    | succ k' =>
      have hk' : k' < s.length := by simpa using hk
      simp only [List.getD_cons_succ, List.set]
      have h1 : (s.getD k' 0 :: b :: s.set k' a).Perm (b :: s.getD k' 0 :: s.set k' a) :=
        List.Perm.swap b (s.getD k' 0) _
      have h2 : (b :: s.getD k' 0 :: s.set k' a).Perm (b :: a :: s) :=
        List.Perm.cons b (ih k' hk')
      have h3 : (b :: a :: s).Perm (a :: b :: s) := List.Perm.swap a b s
      exact (h1.trans h2).trans h3

theorem swapList_perm (l : List Nat) (i j : Nat) (hi : i < l.length)
    (hj : j < l.length) : (swapList l i j).Perm l := by
  induction l generalizing i j with
  | nil => simp at hi
  | cons a t ih =>
    cases i with
    | zero =>
      cases j with
      | zero => simp [swapList]
      | succ j' =>
        have hj' : j' < t.length := by simpa using hj
        simp only [swapList, List.getD_cons_zero, List.getD_cons_succ, List.set]
        exact cons_set_perm t j' hj' a
    | succ i' =>
      cases j with
      | zero =>
        have hi' : i' < t.length := by simpa using hi
        simp only [swapList, List.getD_cons_zero, List.getD_cons_succ, List.set]
        exact cons_set_perm t i' hi' a
      | succ j' =>
        have hi' : i' < t.length := by simpa using hi
        have hj' : j' < t.length := by simpa using hj
        simp only [swapList, List.getD_cons_succ, List.set]
        exact List.Perm.cons a (ih i' j' hi' hj')

theorem swapList_length (l : List Nat) (i j : Nat) :
    (swapList l i j).length = l.length := by
  simp [swapList]

theorem shuffleGo_perm (rand : Nat → Nat) :
    ∀ (i : Nat) (l : List Nat), i < l.length → (shuffleGo rand l i).Perm l := by
  intro i
  induction i with
  | zero => intro l _; exact List.Perm.refl l
  | succ i ih =>
    intro l hl
    simp only [shuffleGo]
    have hlen : (swapList l (i + 1) (rand (i + 1) % (i + 2))).length = l.length :=
      swapList_length l _ _
    have hswap : (swapList l (i + 1) (rand (i + 1) % (i + 2))).Perm l :=
      swapList_perm l _ _ hl (by
        have : rand (i + 1) % (i + 2) < i + 2 := Nat.mod_lt _ (by omega)
        omega)
    have hrec := ih (swapList l (i + 1) (rand (i + 1) % (i + 2))) (by omega)
    exact hrec.trans hswap

theorem shuffle_perm (rand : Nat → Nat) (l : List Nat) :
    (shuffle rand l).Perm l := by
  unfold shuffle
  rcases l with _ | ⟨a, t⟩
  · exact List.Perm.refl _
  · exact shuffleGo_perm rand _ _ (by simp [Nat.lt_succ_iff])

/-! ### `buildLosingAssignments` and `buildWinningAssignments`
(`src/main.js`, scratch-card build, lines 55–106).

`buildLosingAssignments(cardTypeCount)` fills a 9-cell array: for each
cell it picks uniformly among the types whose running count is below 2.
`buildWinningAssignments(cardTypeCount, winningTypeId)` clamps the
winning type into range, places it on the first 3 positions of a
shuffled index permutation, then fills the remaining 6 positions from
the non-winning types whose running count is below 2, falling back to
the winning type only if no such type exists. -/

/-- Increment one slot of the running `counts` array. -/
def bumpCount (counts : Nat → Nat) (ch : Nat) : Nat → Nat :=
  fun t => if t = ch then counts t + 1 else counts t

/-- State of the cell-filling loops: the `assignments` array and the
per-type running `counts` array, plus a flag recording whether the
documented fallback branch (`candidates.push(winningType)`) ever ran. -/
structure FillState where
  assignments : List Nat
  counts : Nat → Nat
  usedFallback : Bool

/-- The `for` loop of `buildLosingAssignments`: `ps` are the cell
indices still to fill (the source iterates `i = 0..8`); `randP i` is the
random draw used by `pickRandom` at cell `i`.  When `pickRandom`
returns `null` the cell receives `choice ?? 0` and `counts[null] += 1`
touches none of the numeric type slots. -/
def losingFill (randP : Nat → Nat) (c : Nat) : List Nat → FillState → FillState
  | [], s => s
  | p :: ps, s =>
    let cand := (List.range c).filter (fun t => decide (s.counts t < 2))
    let choice := pickRandom (randP p) cand
    losingFill randP c ps
      { assignments := s.assignments.set p (choice.getD 0)
        counts := match choice with
          | some ch => bumpCount s.counts ch
          | none => s.counts
        usedFallback := s.usedFallback || cand.isEmpty }

/-- Embedding of `buildLosingAssignments`. -/
def buildLosingAssignments (randP : Nat → Nat) (c : Nat) : List Nat :=
  (losingFill randP c (List.range 9)
    { assignments := List.replicate 9 0, counts := fun _ => 0,
      usedFallback := false }).assignments

/-- The clamp `Math.max(0, Math.min(cardTypeCount - 1, winningTypeId))`. -/
def winningTypeOf (c : Nat) (winningTypeId : Int) : Nat :=
  (max 0 (min ((c : Int) - 1) winningTypeId)).toNat

/-- The `while (cursor < positions.length)` loop of
`buildWinningAssignments`: `ps` are the positions still to fill
(`positions` from index 3 on) and `k` is the cursor used to index the
random draws. -/
def winningFill (randP : Nat → Nat) (c w : Nat) :
    List Nat → Nat → FillState → FillState
  | [], _, s => s
  | p :: ps, k, s =>
    let cand := (List.range c).filter
      (fun t => decide (t ≠ w ∧ s.counts t < 2))
    let cand2 := if cand.isEmpty then [w] else cand
    let choice := (pickRandom (randP k) cand2).getD w
    winningFill randP c w ps (k + 1)
      { assignments := s.assignments.set p choice
        counts := bumpCount s.counts choice
        usedFallback := s.usedFallback || cand.isEmpty }

/-- Embedding of `buildWinningAssignments`; `randS` drives the shuffle
and `randP` drives the `pickRandom` calls of the fill loop.  Returns the
final loop state together with the returned `winningType`. -/
def buildWinningFull (randS randP : Nat → Nat) (c : Nat)
    (winningTypeId : Int) : FillState × Nat :=
  let w := winningTypeOf c winningTypeId
  let positions := shuffle randS (List.range 9)
  let init : FillState :=
    { assignments :=
        (positions.take 3).foldl (fun a p => a.set p w) (List.replicate 9 0)
      counts := fun t => if t = w then 3 else 0
      usedFallback := false }
  (winningFill randP c w (positions.drop 3) 3 init, w)

/-- The `{assignments, winningType}` object returned by
`buildWinningAssignments`. -/
def buildWinningAssignments (randS randP : Nat → Nat) (c : Nat)
    (winningTypeId : Int) : List Nat × Nat :=
  ((buildWinningFull randS randP c winningTypeId).1.assignments,
    (buildWinningFull randS randP c winningTypeId).2)

/-! Sum bookkeeping for the running `counts` arrays. -/

theorem two_mul_length_le_sum (l : List Nat) (f : Nat → Nat)
    (h : ∀ x ∈ l, 2 ≤ f x) : 2 * l.length ≤ (l.map f).sum := by
  induction l with
  | nil => simp
  | cons a t ih =>
    have ha := h a (List.mem_cons_self a t)
    have ht := ih (fun x hx => h x (List.mem_cons_of_mem a hx))
    simp only [List.map_cons, List.sum_cons, List.length_cons]
    omega

theorem map_bump_of_not_mem (l : List Nat) (f : Nat → Nat) (ch : Nat)
    (h : ch ∉ l) : l.map (bumpCount f ch) = l.map f := by
  apply List.map_congr_left
  intro x hx
  have : x ≠ ch := fun he => h (he ▸ hx)
  simp [bumpCount, this]

theorem sum_map_bump_nodup (l : List Nat) (f : Nat → Nat) (ch : Nat)
    (hnd : l.Nodup) (hm : ch ∈ l) :
    (l.map (bumpCount f ch)).sum = (l.map f).sum + 1 := by
  induction l with
  | nil => simp at hm
  | cons a t ih =>
    rcases List.mem_cons.mp hm with h | h
    · have hnotin : ch ∉ t := by
        rw [h]
        exact (List.nodup_cons.mp hnd).1
      simp only [List.map_cons, List.sum_cons,
        map_bump_of_not_mem t f ch hnotin]
      simp only [bumpCount, if_pos h.symm]
      omega
    · have hne : a ≠ ch := by
        intro he
        exact (List.nodup_cons.mp hnd).1 (he ▸ h)
      simp only [List.map_cons, List.sum_cons,
        ih (List.nodup_cons.mp hnd).2 h]
      simp only [bumpCount, if_neg hne]
      omega

/-- Invariant of the `buildLosingAssignments` fill loop: with at least 5
card types the candidate set can never be exhausted, so every running
count stays at most 2 and the final cell array realises exactly the
running counts. -/
theorem losingFill_inv (randP : Nat → Nat) (c : Nat) (hc : 5 ≤ c) :
    ∀ (ps : List Nat) (s : FillState),
      s.assignments.length = 9 →
      ps.Nodup →
      (∀ p ∈ ps, p < 9 ∧ s.assignments.getD p 0 = 0) →
      (∀ t, s.counts t ≤ 2) →
      ((List.range c).map s.counts).sum + ps.length ≤ 9 →
      (∀ t, s.assignments.count t =
        s.counts t + (if t = 0 then ps.length else 0)) →
      s.usedFallback = false →
      (∀ t, (losingFill randP c ps s).assignments.count t =
          (losingFill randP c ps s).counts t) ∧
      (∀ t, (losingFill randP c ps s).counts t ≤ 2) ∧
      (losingFill randP c ps s).usedFallback = false := by
  intro ps
  induction ps with
  | nil =>
    intro s _ _ _ hcap _ hcnt hfb
    refine ⟨fun t => ?_, hcap, hfb⟩
    have := hcnt t
    simpa [losingFill] using this
  | cons p ps ih =>
    intro s hlen hnd hpos hcap hsum hcnt hfb
    have hpmem := hpos p (List.mem_cons_self p ps)
    -- the candidate list is never empty
    have hcand : ¬((List.range c).filter
        (fun t => decide (s.counts t < 2))).isEmpty = true := by
      intro hemp
      have hnil : (List.range c).filter (fun t => decide (s.counts t < 2)) = [] :=
        List.isEmpty_iff.mp hemp
      have hall : ∀ t ∈ List.range c, 2 ≤ s.counts t := by
        intro t ht
        by_contra hlt
        have : t ∈ (List.range c).filter (fun t => decide (s.counts t < 2)) := by
          rw [List.mem_filter]
          exact ⟨ht, by simpa using Nat.lt_of_not_le (fun hle => hlt hle)⟩
        rw [hnil] at this
        simp at this
      have h2c := two_mul_length_le_sum (List.range c) s.counts hall
      rw [List.length_range] at h2c
      have : (9:Nat) < 2 * c := by omega
      omega
    have hempfalse : ((List.range c).filter
        (fun t => decide (s.counts t < 2))).isEmpty = false := by
      cases h : ((List.range c).filter
          (fun t => decide (s.counts t < 2))).isEmpty
      · rfl
      · exact absurd h hcand
    have hlenpos : 0 < ((List.range c).filter
        (fun t => decide (s.counts t < 2))).length := by
      cases h : (List.range c).filter (fun t => decide (s.counts t < 2)) with
      | nil => rw [h] at hempfalse; simp at hempfalse
      | cons a b => simp [h]
    obtain ⟨ch, hch_eq, hch_mem⟩ : ∃ ch,
        pickRandom (randP p) ((List.range c).filter
          (fun t => decide (s.counts t < 2))) = some ch ∧
        ch ∈ (List.range c).filter (fun t => decide (s.counts t < 2)) := by
      refine ⟨((List.range c).filter (fun t => decide (s.counts t < 2))).getD
        (randP p % ((List.range c).filter
          (fun t => decide (s.counts t < 2))).length) 0,
        ?_, getD_mem _ _ (Nat.mod_lt _ hlenpos)⟩
      unfold pickRandom
      rw [hempfalse]
      simp
    have hch_lt : ch < c := by
      have := (List.mem_filter.mp hch_mem).1
      simpa using this
    have hch_cnt : s.counts ch < 2 := by
      have := (List.mem_filter.mp hch_mem).2
      simpa using this
    -- unfold one loop iteration
    have hstep : losingFill randP c (p :: ps) s =
        losingFill randP c ps
          { assignments := s.assignments.set p ch
            counts := bumpCount s.counts ch
            usedFallback := s.usedFallback } := by
      simp only [losingFill, hch_eq, hempfalse, Option.getD_some,
        Bool.or_false]
    rw [hstep]
    apply ih
    · simpa using hlen
    · exact (List.nodup_cons.mp hnd).2
    · intro q hq
      have hqps := hpos q (List.mem_cons_of_mem p hq)
      have hqnep : q ≠ p := by
        intro he
        exact (List.nodup_cons.mp hnd).1 (he ▸ hq)
      exact ⟨hqps.1, by rw [getD_set_ne _ _ _ _ hqnep]; exact hqps.2⟩
    · intro t
      by_cases ht : t = ch
      · subst ht; simp [bumpCount]; omega
      · simpa only [bumpCount, if_neg ht] using hcap t
    · have hbump := sum_map_bump_nodup (List.range c) s.counts ch
        (List.nodup_range c) (List.mem_range.mpr hch_lt)
      rw [hbump]
      simp only [List.length_cons] at hsum
      omega
    · intro t
      have hset := count_set_add s.assignments p
        (by rw [hlen]; exact hpmem.1) ch t
      rw [hpmem.2] at hset
      have hformula := hcnt t
      simp only [bumpCount]
      simp only [List.length_cons] at hformula
      split_ifs at hset hformula ⊢ <;> omega
    ·
      rw [hfb]

/-- CLAIM C4: for `cardTypeCount ≥ 5` and any outcome of the random
source, no type appears more than twice among the 9 cells returned by
`buildLosingAssignments`, and in particular no type appears 3 times, so
the layout contains no winning-type marker; the fallback
(`choice ?? 0` after an empty candidate list) never even fires. -/
theorem buildLosing_count_le (randP : Nat → Nat) (c : Nat) (hc : 5 ≤ c) :
    ∀ t, (buildLosingAssignments randP c).count t ≤ 2 := by
  intro t
  unfold buildLosingAssignments
  have h := losingFill_inv randP c hc (List.range 9)
    { assignments := List.replicate 9 0, counts := fun _ => 0,
      usedFallback := false }
    (by simp)
    (List.nodup_range 9)
    (by
      intro p hp
      exact ⟨List.mem_range.mp hp, getD_replicate 9 p 0 (List.mem_range.mp hp)⟩)
    (by intro t; simp)
    (by simp)
    (by
      intro t
      simp [List.count_replicate]
      split_ifs <;> simp_all)
    rfl
  rw [h.1 t]
  exact h.2.1 t

/-- Witness for `buildLosing_count_le` at a concrete oracle and type
count. -/
theorem buildLosing_count_le_witness :
    (5 ≤ 5) ∧ ∀ t, (buildLosingAssignments (fun _ => 0) 5).count t ≤ 2 :=
  ⟨by decide, buildLosing_count_le (fun _ => 0) 5 (by decide)⟩

/-! Bookkeeping for the three winning-position writes and the
non-winning type pool. -/

theorem length_le_filter_ne :
    ∀ (l : List Nat) (w : Nat), l.Nodup →
      l.length ≤ (l.filter (fun t => decide (t ≠ w))).length + 1 := by
  intro l w
  induction l with
  | nil => simp
  | cons a t ih =>
    intro hnd
    rw [List.filter_cons]
    by_cases h : a = w
    · subst h
      have hkeep : t.filter (fun x => decide (x ≠ a)) = t := by
        apply List.filter_eq_self.mpr
        intro x hx
        have : x ≠ a := by
          intro he
          exact (List.nodup_cons.mp hnd).1 (he ▸ hx)
        simpa using this
      have hcond : (decide (a ≠ a)) = false := by simp
      rw [hcond]
      simp only [Bool.false_eq_true, if_false, List.length_cons]
      rw [hkeep]
    · have hcond : (decide (a ≠ w)) = true := by simp [h]
      rw [hcond]
      have := ih (List.nodup_cons.mp hnd).2
      simp only [if_true, List.length_cons]
      omega

theorem foldl_setw_length (w : Nat) :
    ∀ (ws l : List Nat), (ws.foldl (fun a p => a.set p w) l).length = l.length := by
  intro ws
  induction ws with
  | nil => intro l; rfl
  | cons p ps ih =>
    intro l
    simp only [List.foldl_cons]
    rw [ih]
    simp

theorem foldl_setw_getD_ne (w : Nat) :
    ∀ (ws l : List Nat) (q : Nat), (∀ p ∈ ws, q ≠ p) →
      (ws.foldl (fun a p => a.set p w) l).getD q 0 = l.getD q 0 := by
  intro ws
  induction ws with
  | nil => intro l q _; rfl
  | cons p ps ih =>
    intro l q hq
    simp only [List.foldl_cons]
    rw [ih _ _ (fun r hr => hq r (List.mem_cons_of_mem p hr))]
    exact getD_set_ne l p q w (hq p (List.mem_cons_self p ps))

theorem foldl_setw_count (w : Nat) :
    ∀ (ws l : List Nat), ws.Nodup →
      (∀ p ∈ ws, p < l.length ∧ l.getD p 0 = 0) →
      ∀ t, (ws.foldl (fun a p => a.set p w) l).count t +
          (if t = 0 then ws.length else 0) =
        l.count t + (if t = w then ws.length else 0) := by
  intro ws
  induction ws with
  | nil => intro l _ _ t; simp
  | cons p ps ih =>
    intro l hnd hpos t
    have hp := hpos p (List.mem_cons_self p ps)
    simp only [List.foldl_cons]
    have hrec := ih (l.set p w) (List.nodup_cons.mp hnd).2
      (by
        intro q hq
        have hqp : q ≠ p := by
          intro he
          exact (List.nodup_cons.mp hnd).1 (he ▸ hq)
        refine ⟨by simpa using (hpos q (List.mem_cons_of_mem p hq)).1, ?_⟩
        rw [getD_set_ne l p q w hqp]
        exact (hpos q (List.mem_cons_of_mem p hq)).2) t
    have hset := count_set_add l p hp.1 w t
    rw [hp.2] at hset
    simp only [List.length_cons]
    split_ifs at hrec hset ⊢ <;> omega

/-- Invariant of the `buildWinningAssignments` fill loop: with at least
5 card types there are always non-winning types below the cap of 2, so
the fallback never fires, the winning count stays pinned at 3, every
non-winning count stays at most 2, and the final cell array realises
exactly the running counts. -/
theorem winningFill_inv (randP : Nat → Nat) (c w : Nat) (hc : 5 ≤ c)
    (hw : w < c) :
    ∀ (ps : List Nat) (k : Nat) (s : FillState),
      s.assignments.length = 9 →
      ps.Nodup →
      (∀ p ∈ ps, p < 9 ∧ s.assignments.getD p 0 = 0) →
      (∀ t, t ≠ w → s.counts t ≤ 2) →
      s.counts w = 3 →
      (((List.range c).filter (fun t => decide (t ≠ w))).map s.counts).sum
        + ps.length ≤ 6 →
      (∀ t, s.assignments.count t =
        s.counts t + (if t = 0 then ps.length else 0)) →
      s.usedFallback = false →
      (∀ t, (winningFill randP c w ps k s).assignments.count t =
          (winningFill randP c w ps k s).counts t) ∧
      (winningFill randP c w ps k s).counts w = 3 ∧
      (∀ t, t ≠ w → (winningFill randP c w ps k s).counts t ≤ 2) ∧
      (winningFill randP c w ps k s).usedFallback = false := by
  intro ps
  induction ps with
  | nil =>
    intro k s _ _ _ hcap hw3 _ hcnt hfb
    refine ⟨fun t => ?_, hw3, hcap, hfb⟩
    have := hcnt t
    simpa [winningFill] using this
  | cons p ps ih =>
    intro k s hlen hnd hpos hcap hw3 hsum hcnt hfb
    have hpmem := hpos p (List.mem_cons_self p ps)
    have hcand : ¬((List.range c).filter
        (fun t => decide (t ≠ w ∧ s.counts t < 2))).isEmpty = true := by
      intro hemp
      have hnil : (List.range c).filter
          (fun t => decide (t ≠ w ∧ s.counts t < 2)) = [] :=
        List.isEmpty_iff.mp hemp
      have hall : ∀ t ∈ (List.range c).filter (fun t => decide (t ≠ w)),
          2 ≤ s.counts t := by
        intro t ht
        have htr := (List.mem_filter.mp ht).1
        have htw : t ≠ w := by simpa using (List.mem_filter.mp ht).2
        by_contra hlt
        have : t ∈ (List.range c).filter
            (fun t => decide (t ≠ w ∧ s.counts t < 2)) := by
          rw [List.mem_filter]
          exact ⟨htr, by
            simp only [decide_eq_true_eq]
            exact ⟨htw, Nat.lt_of_not_le (fun hle => hlt hle)⟩⟩
        rw [hnil] at this
        simp at this
      have h2c := two_mul_length_le_sum _ s.counts hall
      have hflen := length_le_filter_ne (List.range c) w (List.nodup_range c)
      rw [List.length_range] at hflen
      simp only [List.length_cons] at hsum
      omega
    have hempfalse : ((List.range c).filter
        (fun t => decide (t ≠ w ∧ s.counts t < 2))).isEmpty = false := by
      cases h : ((List.range c).filter
          (fun t => decide (t ≠ w ∧ s.counts t < 2))).isEmpty
      · rfl
      · exact absurd h hcand
    have hlenpos : 0 < ((List.range c).filter
        (fun t => decide (t ≠ w ∧ s.counts t < 2))).length := by
      cases h : (List.range c).filter (fun t => decide (t ≠ w ∧ s.counts t < 2)) with
      | nil => rw [h] at hempfalse; simp at hempfalse
      | cons a b => simp [h]
    obtain ⟨ch, hch_eq, hch_mem⟩ : ∃ ch,
        pickRandom (randP k) ((List.range c).filter
          (fun t => decide (t ≠ w ∧ s.counts t < 2))) = some ch ∧
        ch ∈ (List.range c).filter (fun t => decide (t ≠ w ∧ s.counts t < 2)) := by
      refine ⟨((List.range c).filter
          (fun t => decide (t ≠ w ∧ s.counts t < 2))).getD
        (randP k % ((List.range c).filter
          (fun t => decide (t ≠ w ∧ s.counts t < 2))).length) 0,
        ?_, getD_mem _ _ (Nat.mod_lt _ hlenpos)⟩
      unfold pickRandom
      rw [hempfalse]
      simp
    have hch_lt : ch < c := by
      have := (List.mem_filter.mp hch_mem).1
      simpa using this
    have hch_props : ch ≠ w ∧ s.counts ch < 2 := by
      have := (List.mem_filter.mp hch_mem).2
      simpa using this
    have hstep : winningFill randP c w (p :: ps) k s =
        winningFill randP c w ps (k + 1)
          { assignments := s.assignments.set p ch
            counts := bumpCount s.counts ch
            usedFallback := s.usedFallback } := by
      simp only [winningFill, hempfalse, Bool.false_eq_true, if_false,
        hch_eq, Option.getD_some, Bool.or_false]
    rw [hstep]
    apply ih
    · simpa using hlen
    · exact (List.nodup_cons.mp hnd).2
    · intro q hq
      have hqps := hpos q (List.mem_cons_of_mem p hq)
      have hqnep : q ≠ p := by
        intro he
        exact (List.nodup_cons.mp hnd).1 (he ▸ hq)
      exact ⟨hqps.1, by rw [getD_set_ne _ _ _ _ hqnep]; exact hqps.2⟩
    · intro t htw
      by_cases ht : t = ch
      · subst ht
        simp only [bumpCount, if_pos rfl, if_true]
        omega
      · simpa only [bumpCount, if_neg ht] using hcap t htw
    · have hwc : ¬(w = ch) := fun he => hch_props.1 (Eq.symm he)
      simp only [bumpCount, if_neg hwc]
      exact hw3
    · have hbump := sum_map_bump_nodup
        ((List.range c).filter (fun t => decide (t ≠ w))) s.counts ch
        ((List.nodup_range c).filter _)
        (by
          rw [List.mem_filter]
          exact ⟨List.mem_range.mpr hch_lt, by simp [hch_props.1]⟩)
      rw [hbump]
      simp only [List.length_cons] at hsum
      omega
    · intro t
      have hset := count_set_add s.assignments p
        (by rw [hlen]; exact hpmem.1) ch t
      rw [hpmem.2] at hset
      have hformula := hcnt t
      simp only [bumpCount]
      simp only [List.length_cons] at hformula
      split_ifs at hset hformula ⊢ <;> omega
    · rw [hfb]

theorem winningTypeOf_lt (c : Nat) (id : Int) (hc : 5 ≤ c) :
    winningTypeOf c id < c := by
  unfold winningTypeOf
  omega

set_option maxHeartbeats 1000000 in
/-- CLAIM C1: for `cardTypeCount ≥ 5` and any outcome of the random
source, `buildWinningAssignments` returns a 9-cell layout in which the
returned winning type occupies exactly 3 cells, every other type
appears at most twice, and the fallback branch (assigning the winning
type to a non-winning position) never fires — consistent with the
documented rule that it can fire only when no non-winning type has a
running count below 2, a situation that cannot arise with 5 or more
types. -/
theorem buildWinning_props (randS randP : Nat → Nat) (c : Nat) (id : Int)
    (hc : 5 ≤ c) :
    (buildWinningAssignments randS randP c id).1.count
        (buildWinningAssignments randS randP c id).2 = 3 ∧
    (∀ t, t ≠ (buildWinningAssignments randS randP c id).2 →
        (buildWinningAssignments randS randP c id).1.count t ≤ 2) ∧
    (buildWinningFull randS randP c id).1.usedFallback = false := by
  have hw := winningTypeOf_lt c id hc
  -- facts about the shuffled position permutation
  have hperm := shuffle_perm randS (List.range 9)
  have hlen9 : (shuffle randS (List.range 9)).length = 9 := by
    rw [hperm.length_eq, List.length_range]
  have hnodup : (shuffle randS (List.range 9)).Nodup :=
    (hperm.nodup_iff).mpr (List.nodup_range 9)
  have hmem9 : ∀ p ∈ shuffle randS (List.range 9), p < 9 := by
    intro p hp
    exact List.mem_range.mp (hperm.mem_iff.mp hp)
  have hsplit : (shuffle randS (List.range 9)).take 3 ++
      (shuffle randS (List.range 9)).drop 3 = shuffle randS (List.range 9) :=
    List.take_append_drop 3 _
  have hnodup2 : ((shuffle randS (List.range 9)).take 3 ++
      (shuffle randS (List.range 9)).drop 3).Nodup := by rw [hsplit]; exact hnodup
  have htake_nodup := (List.nodup_append.mp hnodup2).1
  have hdrop_nodup := (List.nodup_append.mp hnodup2).2.1
  have hdisj := (List.nodup_append.mp hnodup2).2.2
  have htake_len : ((shuffle randS (List.range 9)).take 3).length = 3 := by
    rw [List.length_take, hlen9]
    decide
  have hdrop_len : ((shuffle randS (List.range 9)).drop 3).length = 6 := by
    rw [List.length_drop, hlen9]
  have htake_lt : ∀ p ∈ (shuffle randS (List.range 9)).take 3, p < 9 :=
    fun p hp => hmem9 p (hsplit ▸ List.mem_append_left _ hp)
  have hdrop_lt : ∀ p ∈ (shuffle randS (List.range 9)).drop 3, p < 9 :=
    fun p hp => hmem9 p (hsplit ▸ List.mem_append_right _ hp)
  -- the initial assignment array: three winning-type writes
  have hinit_len : (((shuffle randS (List.range 9)).take 3).foldl
      (fun a p => a.set p (winningTypeOf c id)) (List.replicate 9 0)).length = 9 := by
    rw [foldl_setw_length, List.length_replicate]
  have hinit_zero : ∀ q ∈ (shuffle randS (List.range 9)).drop 3,
      (((shuffle randS (List.range 9)).take 3).foldl
        (fun a p => a.set p (winningTypeOf c id)) (List.replicate 9 0)).getD q 0 = 0 := by
    intro q hq
    rw [foldl_setw_getD_ne]
    · exact getD_replicate 9 q 0 (hdrop_lt q hq)
    · intro p hp he
      exact hdisj hp (he ▸ hq)
  have hinit_cnt : ∀ t, (((shuffle randS (List.range 9)).take 3).foldl
      (fun a p => a.set p (winningTypeOf c id)) (List.replicate 9 0)).count t =
      (if t = winningTypeOf c id then 3 else 0) + (if t = 0 then 6 else 0) := by
    intro t
    have hf := foldl_setw_count (winningTypeOf c id)
      ((shuffle randS (List.range 9)).take 3) (List.replicate 9 0)
      htake_nodup
      (by
        intro p hp
        refine ⟨by rw [List.length_replicate]; exact htake_lt p hp, ?_⟩
        exact getD_replicate 9 p 0 (htake_lt p hp)) t
    have hrep : (List.replicate 9 (0:Nat)).count t = if t = 0 then 9 else 0 := by
      rw [List.count_replicate]
      by_cases h0 : t = 0
      · subst h0; simp
      · have hb : ((0:Nat) == t) = false :=
          beq_eq_false_iff_ne.mpr (fun he => h0 (Eq.symm he))
        rw [hb, if_neg h0]
        simp
    rw [htake_len, hrep] at hf
    split_ifs at hf ⊢ <;> omega
  -- apply the loop invariant
  have hloop := winningFill_inv randP c (winningTypeOf c id) hc hw
    ((shuffle randS (List.range 9)).drop 3) 3
    { assignments := ((shuffle randS (List.range 9)).take 3).foldl
        (fun a p => a.set p (winningTypeOf c id)) (List.replicate 9 0)
      counts := fun t => if t = winningTypeOf c id then 3 else 0
      usedFallback := false }
    hinit_len
    hdrop_nodup
    (fun p hp => ⟨hdrop_lt p hp, hinit_zero p hp⟩)
    (by intro t ht; simp [ht])
    (by simp)
    (by
      have hzero : (((List.range c).filter (fun t => decide (t ≠ winningTypeOf c id))).map
          (fun t => if t = winningTypeOf c id then 3 else 0)).sum = 0 := by
        apply List.sum_eq_zero
        intro x hx
        obtain ⟨t, ht, hval⟩ := List.mem_map.mp hx
        have : t ≠ winningTypeOf c id := by
          simpa using (List.mem_filter.mp ht).2
        rw [if_neg this] at hval
        omega
      rw [hzero, hdrop_len])
    (by
      intro t
      rw [hinit_cnt t, hdrop_len])
    rfl
  unfold buildWinningAssignments
  have hbw : buildWinningFull randS randP c id =
      (winningFill randP c (winningTypeOf c id)
        ((shuffle randS (List.range 9)).drop 3) 3
        { assignments := ((shuffle randS (List.range 9)).take 3).foldl
            (fun a p => a.set p (winningTypeOf c id)) (List.replicate 9 0)
          counts := fun t => if t = winningTypeOf c id then 3 else 0
          usedFallback := false }, winningTypeOf c id) := by
    simp only [buildWinningFull]
  rw [hbw]
  refine ⟨?_, ?_, hloop.2.2.2⟩
  · rw [hloop.1 (winningTypeOf c id)]
    exact hloop.2.1
  · intro t ht
    rw [hloop.1 t]
    exact hloop.2.2.1 t ht

/-- Witness for `buildWinning_props` at a concrete oracle, type count
and winning-type id. -/
theorem buildWinning_props_witness :
    (5 ≤ 5) ∧
    ((buildWinningAssignments (fun _ => 0) (fun _ => 0) 5 2).1.count
        (buildWinningAssignments (fun _ => 0) (fun _ => 0) 5 2).2 = 3 ∧
    (∀ t, t ≠ (buildWinningAssignments (fun _ => 0) (fun _ => 0) 5 2).2 →
        (buildWinningAssignments (fun _ => 0) (fun _ => 0) 5 2).1.count t ≤ 2) ∧
    (buildWinningFull (fun _ => 0) (fun _ => 0) 5 2).1.usedFallback = false) :=
  ⟨by decide, buildWinning_props (fun _ => 0) (fun _ => 0) 5 2 (by decide)⟩

/-! ### The headless `Card` class (`src/unnamed/part_001`)

`Card.reveal({content, onComplete, revealedByPlayer})` refuses to act on
a card that is already revealed or destroyed, returning `false` and
touching nothing; otherwise it applies the icon texture, records the
assigned content key when present, marks the card revealed, clears the
animating flag, invokes `onComplete` once and returns `true`. -/

/-- The `content` argument: `{ key, texture }`, either field nullable. -/
structure CardContent where
  key : Option Nat
  texture : Option Nat
deriving DecidableEq

/-- Modelled fields of a `Card` instance. -/
structure Card where
  revealed : Bool
  destroyed : Bool
  taped : Bool
  animating : Bool
  assignedContent : Option Nat
  iconTexture : Option Nat
  iconVisible : Bool
deriving DecidableEq

/-- `#applyIconTexture`: a missing texture hides the icon and resets it
to the empty texture; otherwise the texture is applied and the icon
shown (the size computation is purely visual and elided). -/
def Card.applyIconTexture (c : Card) (content : Option CardContent) : Card :=
  match content.bind (fun ct => ct.texture) with
  | none => { c with iconTexture := none, iconVisible := false }
  | some tx => { c with iconTexture := some tx, iconVisible := true }

/-- `Card.reveal`.  The returned triple is the updated card, the boolean
return value, and the number of times `onComplete` was invoked. -/
def Card.reveal (c : Card) (content : Option CardContent) :
    Card × Bool × Nat :=
  if c.revealed || c.destroyed then (c, false, 0)
  else
    let c1 := c.applyIconTexture content
    let c2 :=
      match content.bind (fun ct => ct.key) with
      | some k => { c1 with assignedContent := some k }
      | none => c1
    ({ c2 with revealed := true, animating := false }, true, 1)

/-- CLAIM C9: `Card.reveal` returns `false` and leaves the card
entirely unchanged whenever the card is already revealed or destroyed;
otherwise it marks the card revealed, invokes `onComplete` exactly
once and returns `true`, so a card can be successfully revealed at most
once: a second `reveal` on the result is always rejected unchanged. -/
theorem card_reveal_props (c : Card) (content : Option CardContent) :
    ((c.revealed = true ∨ c.destroyed = true) →
      c.reveal content = (c, false, 0)) ∧
    (c.revealed = false → c.destroyed = false →
      ((c.reveal content).1.revealed = true ∧
       (c.reveal content).2.1 = true ∧
       (c.reveal content).2.2 = 1 ∧
       ∀ content2, ((c.reveal content).1.reveal content2 =
         ((c.reveal content).1, false, 0)))) := by
  constructor
  · intro h
    unfold Card.reveal
    rcases h with h | h <;> simp [h]
  · intro h1 h2
    unfold Card.reveal
    simp only [h1, h2, Bool.or_self, Bool.false_or, if_false]
    rcases hk : content.bind (fun ct => ct.key) with _ | k <;>
      simp [hk, Card.reveal]

/-- A freshly constructed card: unrevealed, not destroyed. -/
def freshCard : Card where
  revealed := false
  destroyed := false
  taped := false
  animating := false
  assignedContent := none
  iconTexture := none
  iconVisible := false

/-- Witness for `card_reveal_props` on a fresh card. -/
theorem card_reveal_props_witness :
    ((freshCard.revealed = true ∨ freshCard.destroyed = true) →
      freshCard.reveal none = (freshCard, false, 0)) ∧
    (freshCard.revealed = false → freshCard.destroyed = false →
      ((freshCard.reveal none).1.revealed = true ∧
       (freshCard.reveal none).2.1 = true ∧
       (freshCard.reveal none).2.2 = 1 ∧
       ∀ content2, ((freshCard.reveal none).1.reveal content2 =
         ((freshCard.reveal none).1, false, 0)))) :=
  card_reveal_props freshCard none

/-! ### The mines game engine (`src/game/game.js`)

The closure state of `createGame` is modelled as a record.  Purely
visual work (PIXI containers, tints, sounds, win pop-up, layout,
hover/wiggle tweens) has no effect on the modelled state and is elided;
the scheduling of a reveal-flip animation is recorded in
`scheduledFlips`, and a call to `revealAllTiles` (whose random bomb
back-fill and staggered flips live entirely in the animation layer) is
recorded in `forcedRevealRequests`.  Callbacks into the host
(`onAutoSelectionChange`, `onChange`) are returned as an `Emission`
list, in call order, for the host model to process. -/

/-- A board tile: the fields of the tile `Container` that the game
logic reads or writes. -/
structure Tile where
  row : Nat
  col : Nat
  revealed : Bool
  animating : Bool
  isAutoSelected : Bool
  taped : Bool
deriving DecidableEq

/-- The object returned by `getState()`. -/
structure StateView where
  grid : Nat
  mines : Nat
  revealedSafe : Nat
  totalSafe : Nat
  gameOver : Bool
  waitingForChoice : Bool
  selectedTile : Option (Nat × Nat)
deriving DecidableEq

/-- The face passed to `revealTileWithFlip`. -/
inductive Face
  | diamond
  | bomb
deriving DecidableEq

/-- Host callbacks fired by the game, with their payloads. -/
inductive Emission
  | autoSelectionChange (count : Nat)
  | stateChange (v : StateView)

/-- Closure state of `createGame`. -/
structure GameState where
  grid : Nat
  mines : Nat
  tiles : List Tile
  bombPositions : List (Nat × Nat)
  gameOver : Bool
  shouldPlayStartSound : Bool
  revealedSafe : Nat
  totalSafe : Nat
  waitingForChoice : Bool
  selectedTile : Option (Nat × Nat)
  autoSelectionOrder : List (Nat × Nat)
  scheduledFlips : List ((Nat × Nat) × Face)
  forcedRevealRequests : Nat
deriving DecidableEq

/-- A fresh unrevealed tile as produced by `createTile`. -/
def mkTile (r c : Nat) : Tile where
  row := r
  col := c
  revealed := false
  animating := false
  isAutoSelected := false
  taped := false

/-- The row-major tile array built by `buildBoard`'s nested loops. -/
def freshTiles (n : Nat) : List Tile :=
  (List.range n).flatMap (fun r => (List.range n).map (fun c => mkTile r c))

/-- Coordinate lookup standing in for the tile references / the
`"row,col"` keyed maps the source builds; boards built by `buildBoard`
have one tile per coordinate. -/
def findTile (tiles : List Tile) (r c : Nat) : Option Tile :=
  tiles.find? (fun t => t.row == r && t.col == c)

/-- Mutation of the (unique) tile at a coordinate. -/
def updateTile (tiles : List Tile) (r c : Nat) (f : Tile → Tile) : List Tile :=
  tiles.map (fun t => if t.row == r && t.col == c then f t else t)

/-- `getState()`. -/
def getState (g : GameState) : StateView where
  grid := g.grid
  mines := g.mines
  revealedSafe := g.revealedSafe
  totalSafe := g.totalSafe
  gameOver := g.gameOver
  waitingForChoice := g.waitingForChoice
  selectedTile := g.selectedTile

/-- `notifyAutoSelectionChange()`: emits the live selection count. -/
def notifyAutoSelectionChange (g : GameState) : List Emission :=
  [Emission.autoSelectionChange g.autoSelectionOrder.length]

/-- `setAutoTileSelected(tile, selected, {emit, …})` at a coordinate
(the tint/hover updates are visual and elided). -/
def setAutoTileSelected (g : GameState) (rc : Nat × Nat) (selected : Bool)
    (emit : Bool) : GameState × List Emission :=
  match findTile g.tiles rc.1 rc.2 with
  | none => (g, [])
  | some t =>
    if selected then
      if t.isAutoSelected then
        (g, if emit then notifyAutoSelectionChange g else [])
      else
        let g2 := { g with
          tiles := updateTile g.tiles rc.1 rc.2
            (fun t => { t with isAutoSelected := true, taped := true })
          autoSelectionOrder := g.autoSelectionOrder ++ [rc] }
        (g2, if emit then notifyAutoSelectionChange g2 else [])
    else
      if !t.isAutoSelected then
        (g, if emit then notifyAutoSelectionChange g else [])
      else
        let g2 := { g with
          tiles := updateTile g.tiles rc.1 rc.2
            (fun t => { t with isAutoSelected := false, taped := false })
          autoSelectionOrder := g.autoSelectionOrder.erase rc }
        (g2, if emit then notifyAutoSelectionChange g2 else [])

/-- `clearAutoSelections({emit})`. -/
def clearAutoSelections (g : GameState) (emit : Bool) :
    GameState × List Emission :=
  if g.autoSelectionOrder.isEmpty then
    (g, if emit then notifyAutoSelectionChange g else [])
  else
    let g2 := { g with
      tiles := g.tiles.map (fun t =>
        if t.isAutoSelected then { t with isAutoSelected := false, taped := false }
        else t)
      autoSelectionOrder := [] }
    (g2, if emit then notifyAutoSelectionChange g2 else [])

/-- `getAutoSelectionCoordinates()`. -/
def getAutoSelectionCoordinates (g : GameState) : List (Nat × Nat) :=
  g.autoSelectionOrder

/-- The `for` loop of `applyAutoSelectionsFromCoordinates`: entries
whose tile is missing, revealed or animating are skipped. -/
def applyAutoSelectionsGo (g : GameState) : List (Nat × Nat) → GameState
  | [] => g
  | rc :: rest =>
    match findTile g.tiles rc.1 rc.2 with
    | none => applyAutoSelectionsGo g rest
    | some t =>
      if t.revealed || t.animating then applyAutoSelectionsGo g rest
      else applyAutoSelectionsGo (setAutoTileSelected g rc true false).1 rest

/-- `applyAutoSelectionsFromCoordinates(coordinates, {emit})`. -/
def applyAutoSelectionsFromCoordinates (g : GameState)
    (coords : List (Nat × Nat)) (emit : Bool) : GameState × List Emission :=
  if coords.isEmpty then clearAutoSelections g emit
  else
    let g1 := (clearAutoSelections g false).1
    let g2 := applyAutoSelectionsGo g1 coords
    (g2, if emit then notifyAutoSelectionChange g2 else [])

/-- `clearSelection({emitAutoSelectionChange})`. -/
def clearSelection (g : GameState) (emitAuto : Bool) :
    GameState × List Emission :=
  let g1 := { g with waitingForChoice := false, selectedTile := none }
  clearAutoSelections g1 emitAuto

/-- `buildBoard({emitAutoSelectionChange})`: clears the selection,
rebuilds a fresh tile grid and resets the reveal counters; the
game-start sound is played and its flag cleared. -/
def buildBoard (g : GameState) (emitAuto : Bool) : GameState × List Emission :=
  let (g1, e1) := clearSelection g emitAuto
  ({ g1 with
      tiles := freshTiles g1.grid
      revealedSafe := 0
      totalSafe := g1.grid * g1.grid - g1.mines
      shouldPlayStartSound := false }, e1)

/-- `reset({preserveAutoSelections})`.  The final `onChange(getState())`
emission carries the state as of the end of the call. -/
def reset (g : GameState) (preserve : Bool) : GameState × List Emission :=
  let g1 := { g with
    gameOver := false
    bombPositions := []
    shouldPlayStartSound := true }
  let preserved := if preserve then some g1.autoSelectionOrder else none
  let (g2, e1) := buildBoard g1 (!preserve)
  match preserved with
  | some coords =>
    if coords.isEmpty then
      (g2, e1 ++ [Emission.stateChange (getState g2)])
    else
      let (g3, e2) := applyAutoSelectionsFromCoordinates g2 coords true
      (g3, e1 ++ e2 ++ [Emission.stateChange (getState g3)])
  | none => (g2, e1 ++ [Emission.stateChange (getState g2)])

/-- JavaScript's `n | 0` on an integral value: 32-bit wrap-around. -/
def toInt32 (n : Int) : Int :=
  (n + 2 ^ 31) % 2 ^ 32 - 2 ^ 31

/-- `setMines(n)`: `mines = Math.max(1, Math.min(n | 0, GRID * GRID - 1))`
followed by `reset()`. -/
def setMines (g : GameState) (n : Int) : GameState × List Emission :=
  reset { g with
    mines := (max 1 (min (toInt32 n) ((g.grid * g.grid : Int) - 1))).toNat }
    false

/-- The synchronous part of `revealTileWithFlip`: an animating or
revealed tile is rejected (`return false`); otherwise the flip is
scheduled (the delayed animation, sounds and completion callback run in
the animation layer). -/
def revealTileWithFlip (g : GameState) (rc : Nat × Nat) (face : Face) :
    GameState × Bool :=
  match findTile g.tiles rc.1 rc.2 with
  | none => (g, true)
  | some t =>
    if t.animating || t.revealed then (g, false)
    else ({ g with scheduledFlips := g.scheduledFlips ++ [(rc, face)] }, true)

/-- The `if (selectedTile?._animating) { stopHover(…); stopWiggle(…) }`
prologue shared by `setSelectedCardIsDiamond` and
`SetSelectedCardIsBomb`: `stopWiggle` clears the selected tile's
`_animating` flag (the hover token is visual). -/
def stopSelectedWiggle (g : GameState) : GameState :=
  match g.selectedTile with
  | some rc =>
    match findTile g.tiles rc.1 rc.2 with
    | some t =>
      if t.animating then
        { g with
          tiles := updateTile g.tiles rc.1 rc.2
            (fun t => { t with animating := false }) }
      else g
    | none => g
  | none => g

/-- `setSelectedCardIsDiamond()`.  Note the order of operations in the
source: when the selected tile is animating, `stopWiggle` clears its
`_animating` flag *before* the guard is evaluated, so the guard's
`selectedTile._animating` disjunct can never fire and the reveal
proceeds.  The guard's short-circuit disjunction is rendered as nested
tests. -/
def setSelectedCardIsDiamond (g : GameState) : GameState :=
  let g1 := stopSelectedWiggle g
  if !g1.waitingForChoice then g1
  else
    match g1.selectedTile with
    | none => g1
    | some rc =>
      match findTile g1.tiles rc.1 rc.2 with
      | none => g1
      | some t =>
        if t.revealed || t.animating then g1
        else
          let g2 := { g1 with waitingForChoice := false, selectedTile := none }
          (revealTileWithFlip g2 rc Face.diamond).1

/-- `SetSelectedCardIsBomb()` (sic): as the diamond case, additionally
setting `gameOver` before the reveal. -/
def SetSelectedCardIsBomb (g : GameState) : GameState :=
  let g1 := stopSelectedWiggle g
  if !g1.waitingForChoice then g1
  else
    match g1.selectedTile with
    | none => g1
    | some rc =>
      match findTile g1.tiles rc.1 rc.2 with
      | none => g1
      | some t =>
        if t.revealed || t.animating then g1
        else
          let g2 := { g1 with
            gameOver := true
            waitingForChoice := false
            selectedTile := none }
          (revealTileWithFlip g2 rc Face.bomb).1

/-- `revealRemainingTiles()` → `revealAllTiles()`: the forced reveal of
every remaining tile (random bomb back-fill plus staggered flips) runs
in the animation layer; the model records the request. -/
def revealRemainingTiles (g : GameState) : GameState :=
  { g with forcedRevealRequests := g.forcedRevealRequests + 1 }

/-! Properties of the wiggle prologue and lookups after updates. -/

theorem stopSelectedWiggle_getState (g : GameState) :
    getState (stopSelectedWiggle g) = getState g := by
  unfold stopSelectedWiggle
  split
  · split
    · split <;> rfl
    · rfl
  · rfl

theorem stopSelectedWiggle_flips (g : GameState) :
    (stopSelectedWiggle g).scheduledFlips = g.scheduledFlips := by
  unfold stopSelectedWiggle
  split
  · split
    · split <;> rfl
    · rfl
  · rfl

theorem stopSelectedWiggle_waiting (g : GameState) :
    (stopSelectedWiggle g).waitingForChoice = g.waitingForChoice := by
  unfold stopSelectedWiggle
  split
  · split
    · split <;> rfl
    · rfl
  · rfl

theorem stopSelectedWiggle_selected (g : GameState) :
    (stopSelectedWiggle g).selectedTile = g.selectedTile := by
  unfold stopSelectedWiggle
  split
  · split
    · split <;> rfl
    · rfl
  · rfl

theorem findTile_updateTile (tiles : List Tile) (r c : Nat) (f : Tile → Tile)
    (hrow : ∀ t, (f t).row = t.row) (hcol : ∀ t, (f t).col = t.col) :
    findTile (updateTile tiles r c f) r c =
      Option.map f (findTile tiles r c) := by
  induction tiles with
  | nil => rfl
  | cons t0 rest ih =>
    by_cases hb : (t0.row == r && t0.col == c) = true
    · have hfb : ((f t0).row == r && (f t0).col == c) = true := by
        rw [hrow, hcol]; exact hb
      simp [findTile, updateTile, List.find?, hb, hfb]
    · have hupd : (if (t0.row == r && t0.col == c) = true then f t0 else t0) = t0 := by
        rw [if_neg hb]
      simp only [findTile, updateTile, List.map_cons] at ih ⊢
      rw [if_neg hb]
      simp only [List.find?]
      rw [Bool.eq_false_iff.mpr hb]
      exact ih

/-- Tiles found by `stopSelectedWiggle` at the selected coordinate keep
their `revealed` flag and end up not animating only when they started
that way or were the wiggling tile. -/
theorem stopSelectedWiggle_find (g : GameState) (rc : Nat × Nat) (t : Tile)
    (hsel : g.selectedTile = some rc)
    (hfind : findTile g.tiles rc.1 rc.2 = some t) :
    findTile (stopSelectedWiggle g).tiles rc.1 rc.2 =
      some (if t.animating then { t with animating := false } else t) := by
  unfold stopSelectedWiggle
  simp only [hsel, hfind]
  by_cases h : t.animating
  · simp only [h, if_true]
    rw [findTile_updateTile g.tiles rc.1 rc.2
      (fun t => { t with animating := false }) (fun _ => rfl) (fun _ => rfl),
      hfind]
    rfl
  · rw [if_neg h]
    simpa [h] using hfind

/-- CLAIM C5 (amended): a settlement setter is a no-op on the
observable game state — and schedules no reveal — when no live
selection matches it because `waitingForChoice` is false, no tile is
selected, or the selected tile is already revealed.  (The fourth case
of the original claim, a merely *animating* selected tile, is not a
no-op: the wiggle is cancelled and the reveal proceeds — see the
counterexample.) -/
theorem settle_noop (g : GameState)
    (h : g.waitingForChoice = false ∨ g.selectedTile = none ∨
      (∃ rc t, g.selectedTile = some rc ∧
        findTile g.tiles rc.1 rc.2 = some t ∧ t.revealed = true)) :
    getState (setSelectedCardIsDiamond g) = getState g ∧
    (setSelectedCardIsDiamond g).scheduledFlips = g.scheduledFlips ∧
    getState (SetSelectedCardIsBomb g) = getState g ∧
    (SetSelectedCardIsBomb g).scheduledFlips = g.scheduledFlips := by
  unfold setSelectedCardIsDiamond SetSelectedCardIsBomb
  rcases h with h | h | ⟨rc, t, hsel, hfind, hrev⟩
  · have hw : (stopSelectedWiggle g).waitingForChoice = false := by
      rw [stopSelectedWiggle_waiting]; exact h
    simp only [hw, Bool.not_false, if_true]
    exact ⟨stopSelectedWiggle_getState g, stopSelectedWiggle_flips g,
      stopSelectedWiggle_getState g, stopSelectedWiggle_flips g⟩
  · have hs : (stopSelectedWiggle g).selectedTile = none := by
      rw [stopSelectedWiggle_selected]; exact h
    by_cases hw : (stopSelectedWiggle g).waitingForChoice
    · simp only [hw, Bool.not_true, if_false, hs]
      exact ⟨stopSelectedWiggle_getState g, stopSelectedWiggle_flips g,
        stopSelectedWiggle_getState g, stopSelectedWiggle_flips g⟩
    · simp only [Bool.not_eq_true] at hw
      simp only [hw, Bool.not_false, if_true]
      exact ⟨stopSelectedWiggle_getState g, stopSelectedWiggle_flips g,
        stopSelectedWiggle_getState g, stopSelectedWiggle_flips g⟩
  · have hs : (stopSelectedWiggle g).selectedTile = some rc := by
      rw [stopSelectedWiggle_selected]; exact hsel
    have hf := stopSelectedWiggle_find g rc t hsel hfind
    have hrev2 : (if t.animating then { t with animating := false } else t).revealed
        = true := by
      by_cases ha : t.animating <;> simp [ha, hrev]
    by_cases hw : (stopSelectedWiggle g).waitingForChoice
    · simp only [hw, Bool.not_true, if_false, hs, hf, hrev2, Bool.true_or,
        if_true]
      exact ⟨stopSelectedWiggle_getState g, stopSelectedWiggle_flips g,
        stopSelectedWiggle_getState g, stopSelectedWiggle_flips g⟩
    · simp only [Bool.not_eq_true] at hw
      simp only [hw, Bool.not_false, if_true]
      exact ⟨stopSelectedWiggle_getState g, stopSelectedWiggle_flips g,
        stopSelectedWiggle_getState g, stopSelectedWiggle_flips g⟩

/-- A single selected, unrevealed tile that is mid-wiggle. -/
def wiggleTile : Tile where
  row := 0
  col := 0
  revealed := false
  animating := true
  isAutoSelected := false
  taped := true

/-- A board whose single tile is selected, unrevealed and currently
animating (mid-wiggle), with a choice pending. -/
def wiggleGame : GameState where
  grid := 1
  mines := 0
  tiles := [wiggleTile]
  bombPositions := []
  gameOver := false
  shouldPlayStartSound := false
  revealedSafe := 0
  totalSafe := 1
  waitingForChoice := true
  selectedTile := some (0, 0)
  autoSelectionOrder := []
  scheduledFlips := []
  forcedRevealRequests := 0

/-- Counterexample to CLAIM C5 as stated: when the selected tile is
animating (and a choice is pending on an unrevealed tile),
`setSelectedCardIsDiamond` is *not* discarded — it stops the wiggle,
consumes the selection, schedules the reveal and changes the
observable game state. -/
theorem settle_animating_counterexample :
    wiggleGame.waitingForChoice = true ∧
    wiggleGame.selectedTile = some (0, 0) ∧
    findTile wiggleGame.tiles 0 0 = some wiggleTile ∧
    wiggleTile.animating = true ∧ wiggleTile.revealed = false ∧
    getState (setSelectedCardIsDiamond wiggleGame) ≠ getState wiggleGame ∧
    (setSelectedCardIsDiamond wiggleGame).scheduledFlips ≠
      wiggleGame.scheduledFlips := by
  decide

/-- `wiggleGame` with no choice pending: the no-op hypothesis holds. -/
def idleWiggleGame : GameState :=
  { wiggleGame with waitingForChoice := false }

/-- Witness for `settle_noop` on a concrete state with
`waitingForChoice = false`. -/
theorem settle_noop_witness :
    (idleWiggleGame.waitingForChoice = false ∨
      idleWiggleGame.selectedTile = none ∨
      (∃ rc t, idleWiggleGame.selectedTile = some rc ∧
        findTile idleWiggleGame.tiles rc.1 rc.2 = some t ∧
        t.revealed = true)) ∧
    (getState (setSelectedCardIsDiamond idleWiggleGame) =
       getState idleWiggleGame ∧
     (setSelectedCardIsDiamond idleWiggleGame).scheduledFlips =
       idleWiggleGame.scheduledFlips ∧
     getState (SetSelectedCardIsBomb idleWiggleGame) =
       getState idleWiggleGame ∧
     (SetSelectedCardIsBomb idleWiggleGame).scheduledFlips =
       idleWiggleGame.scheduledFlips) :=
  ⟨Or.inl rfl, settle_noop idleWiggleGame (Or.inl rfl)⟩

/-! Projections of `reset` used by the idempotence and clamping
claims. -/

theorem reset_false_state (g : GameState) :
    getState (reset g false).1 =
      { grid := g.grid, mines := g.mines, revealedSafe := 0,
        totalSafe := g.grid * g.grid - g.mines, gameOver := false,
        waitingForChoice := false, selectedTile := none } := by
  by_cases h : g.autoSelectionOrder.isEmpty <;>
    simp [reset, buildBoard, clearSelection, clearAutoSelections, getState, h]

theorem reset_false_grid_mines (g : GameState) :
    (reset g false).1.grid = g.grid ∧ (reset g false).1.mines = g.mines := by
  by_cases h : g.autoSelectionOrder.isEmpty <;>
    simp [reset, buildBoard, clearSelection, clearAutoSelections, h]

/-- CLAIM C8: `reset()` always lands in the Idle observable state —
`gameOver = false`, `revealedSafe = 0`, `waitingForChoice = false`,
`selectedTile = null` on a freshly built board — and calling `reset()`
again from that state reports the same observable state: reset is
idempotent on `getState()`. -/
theorem reset_idempotent (g : GameState) :
    getState (reset g false).1 =
      { grid := g.grid, mines := g.mines, revealedSafe := 0,
        totalSafe := g.grid * g.grid - g.mines, gameOver := false,
        waitingForChoice := false, selectedTile := none } ∧
    getState (reset (reset g false).1 false).1 = getState (reset g false).1 := by
  refine ⟨reset_false_state g, ?_⟩
  rw [reset_false_state ((reset g false).1), reset_false_state g,
    (reset_false_grid_mines g).1, (reset_false_grid_mines g).2]

/-- The game state built by `createGame` (after the initial
`buildBoard`): `mines = Math.max(1, Math.min(opts.mines ?? 5,
GRID * GRID - 1))`. -/
def createGameModel (grid : Nat) (optsMines : Int) : GameState where
  grid := grid
  mines := (max 1 (min optsMines ((grid * grid : Int) - 1))).toNat
  tiles := freshTiles grid
  bombPositions := []
  gameOver := false
  shouldPlayStartSound := false
  revealedSafe := 0
  totalSafe := grid * grid - (max 1 (min optsMines ((grid * grid : Int) - 1))).toNat
  waitingForChoice := false
  selectedTile := none
  autoSelectionOrder := []
  scheduledFlips := []
  forcedRevealRequests := 0

theorem setMines_mines (g : GameState) (n : Int) :
    (setMines g n).1.mines =
      (max 1 (min (toInt32 n) ((g.grid * g.grid : Int) - 1))).toNat ∧
    (setMines g n).1.grid = g.grid ∧
    (setMines g n).1.totalSafe = g.grid * g.grid -
      (max 1 (min (toInt32 n) ((g.grid * g.grid : Int) - 1))).toNat := by
  unfold setMines
  refine ⟨?_, ?_, ?_⟩
  · rw [(reset_false_grid_mines _).2]
  · rw [(reset_false_grid_mines _).1]
  · have hst := reset_false_state { g with
      mines := (max 1 (min (toInt32 n) ((g.grid * g.grid : Int) - 1))).toNat }
    have htot := congrArg StateView.totalSafe hst
    simpa [getState] using htot

/-- CLAIM C10: the mine count is clamped into `[1, GRID*GRID - 1]` at
game creation, and every `setMines(n)` call truncates `n` to a 32-bit
integer and clamps it into the same range before rebuilding the board,
so `totalSafe = GRID*GRID - mines` is always at least 1 (for any board
with at least 2×2 tiles). -/
theorem mines_clamped (grid : Nat) (m0 : Int) (hg : 2 ≤ grid) :
    (1 ≤ (createGameModel grid m0).mines ∧
     (createGameModel grid m0).mines ≤ grid * grid - 1 ∧
     (createGameModel grid m0).totalSafe =
       grid * grid - (createGameModel grid m0).mines ∧
     1 ≤ (createGameModel grid m0).totalSafe) ∧
    ∀ n : Int,
      1 ≤ (setMines (createGameModel grid m0) n).1.mines ∧
      (setMines (createGameModel grid m0) n).1.mines ≤ grid * grid - 1 ∧
      (setMines (createGameModel grid m0) n).1.totalSafe =
        grid * grid - (setMines (createGameModel grid m0) n).1.mines ∧
      1 ≤ (setMines (createGameModel grid m0) n).1.totalSafe := by
  have hgsq : 4 ≤ grid * grid := Nat.mul_le_mul hg hg
  have hGI : ((grid * grid : Nat) : Int) = (grid : Int) * (grid : Int) := by
    push_cast
    ring
  constructor
  · have hm0 : (createGameModel grid m0).mines =
        (max 1 (min m0 ((grid * grid : Int) - 1))).toNat := rfl
    have ht0 : (createGameModel grid m0).totalSafe =
        grid * grid - (max 1 (min m0 ((grid * grid : Int) - 1))).toNat := rfl
    rw [hm0, ht0]
    omega
  · intro n
    obtain ⟨hm, hgr, ht⟩ := setMines_mines (createGameModel grid m0) n
    have hgrid : (createGameModel grid m0).grid = grid := rfl
    rw [hgrid] at hm ht
    rw [hm, ht]
    omega

/-- Witness for `mines_clamped` on the shipped 5×5 board with the
default of 5 mines. -/
theorem mines_clamped_witness :
    (2 ≤ 5) ∧
    ((1 ≤ (createGameModel 5 5).mines ∧
     (createGameModel 5 5).mines ≤ 5 * 5 - 1 ∧
     (createGameModel 5 5).totalSafe =
       5 * 5 - (createGameModel 5 5).mines ∧
     1 ≤ (createGameModel 5 5).totalSafe) ∧
    ∀ n : Int,
      1 ≤ (setMines (createGameModel 5 5) n).1.mines ∧
      (setMines (createGameModel 5 5) n).1.mines ≤ 5 * 5 - 1 ∧
      (setMines (createGameModel 5 5) n).1.totalSafe =
        5 * 5 - (setMines (createGameModel 5 5) n).1.mines ∧
      1 ≤ (setMines (createGameModel 5 5) n).1.totalSafe) :=
  ⟨by decide, mines_clamped 5 5 (by decide)⟩

/-! ### The scratch-card host (`src/main.js`, first build)

Module-level state: `demoMode`, `waitingForResult`, `currentMode`,
`currentCardTypes`, `roundActive`, `autoRunning`, `autoTimer`, plus the
outbound relay messages.  `CARD_TYPE_TEXTURE_URLS.length` is an
environment constant carried as `textureCount`.  Control-panel setters
and renderer calls (`game.setRound`, `game.revealAll`,
`setInteractionsEnabled`) do not touch this state and are elided. -/

/-- The two `result` strings of a round. -/
inductive RoundResult
  | win
  | lost
deriving DecidableEq

/-- The round payload produced by `buildRound` / `handleBetResult`. -/
structure RoundData where
  assignments : List Nat
  result : RoundResult
  winningCardTypeId : Option Nat
deriving DecidableEq

/-- `buildRound(cardTypeCount, forcedResult)`: clamp the type count into
`[5, textureCount]`, draw win/lose at 45% (`coin` is the comparison
outcome), then delegate to the layout builders; `wId % totalTypes`
models `Math.floor(Math.random() * totalTypes)`. -/
def buildRound (coin : Bool) (wId : Nat) (randS randP : Nat → Nat)
    (textureCount cardTypeCount : Nat) (forced : Option RoundResult) :
    RoundData :=
  let totalTypes := max 5 (min cardTypeCount textureCount)
  let result := forced.getD (if coin then RoundResult.win else RoundResult.lost)
  match result with
  | RoundResult.win =>
    let bw := buildWinningAssignments randS randP totalTypes
      ((wId % totalTypes : Nat) : Int)
    { assignments := bw.1, result := RoundResult.win,
      winningCardTypeId := some bw.2 }
  | RoundResult.lost =>
    { assignments := buildLosingAssignments randP totalTypes,
      result := RoundResult.lost, winningCardTypeId := none }

/-- `manual` / `auto` control-panel mode. -/
inductive SMode
  | manual
  | auto
deriving DecidableEq

/-- Module-level state of the scratch-card host. -/
structure SState where
  demoMode : Bool
  waitingForResult : Bool
  currentMode : SMode
  currentCardTypes : Nat
  roundActive : Bool
  autoRunning : Bool
  autoTimerScheduled : Bool
  sent : List String
  textureCount : Nat
deriving DecidableEq

/-- `startRound(roundData)`: a null payload is ignored; otherwise the
round becomes active and the pending-result flag clears (the renderer
calls and button-state updates are visual). -/
def startRound (s : SState) (roundData : Option RoundData) : SState :=
  match roundData with
  | none => s
  | some _ => { s with roundActive := true, waitingForResult := false }

/-- `requestBet()`: rejected while a result is pending or a round is
active; otherwise marks a result pending, then either resolves locally
(demo mode) or sends `action:bet` to the relay. -/
def requestBet (coin : Bool) (wId : Nat) (randS randP : Nat → Nat)
    (s : SState) : SState :=
  if s.waitingForResult || s.roundActive then s
  else
    let s1 := { s with waitingForResult := true }
    if s1.demoMode then
      startRound s1 (some (buildRound coin wId randS randP s.textureCount
        s.currentCardTypes none))
    else { s1 with sent := s1.sent ++ ["action:bet"] }

/-- CLAIM C6: a second bet submitted while a round is active or a
result is pending is silently ignored — `requestBet` returns without
sending any message and without changing any state — and a bet is
accepted exactly in the Idle state (neither `roundActive` nor
`waitingForResult`): in demo mode the round starts, in live mode the
result becomes pending and `action:bet` is the only message sent. -/
theorem requestBet_guard (coin : Bool) (wId : Nat) (randS randP : Nat → Nat)
    (s : SState) :
    ((s.waitingForResult = true ∨ s.roundActive = true) →
      requestBet coin wId randS randP s = s) ∧
    (s.waitingForResult = false → s.roundActive = false →
      ((s.demoMode = true →
        (requestBet coin wId randS randP s).roundActive = true ∧
        (requestBet coin wId randS randP s).waitingForResult = false ∧
        (requestBet coin wId randS randP s).sent = s.sent) ∧
       (s.demoMode = false →
        (requestBet coin wId randS randP s).waitingForResult = true ∧
        (requestBet coin wId randS randP s).roundActive = s.roundActive ∧
        (requestBet coin wId randS randP s).sent =
          s.sent ++ ["action:bet"]))) := by
  constructor
  · intro h
    unfold requestBet
    rcases h with h | h <;> simp [h]
  · intro h1 h2
    constructor
    · intro hd
      unfold requestBet
      simp [h1, h2, hd, startRound]
    · intro hd
      unfold requestBet
      simp [h1, h2, hd]

/-- An Idle demo-mode scratch-card host state. -/
def idleSState : SState where
  demoMode := true
  waitingForResult := false
  currentMode := SMode.manual
  currentCardTypes := 6
  roundActive := false
  autoRunning := false
  autoTimerScheduled := false
  sent := []
  textureCount := 6

/-- Witness for `requestBet_guard` in the Idle demo state. -/
theorem requestBet_guard_witness :
    ((idleSState.waitingForResult = true ∨ idleSState.roundActive = true) →
      requestBet false 0 (fun _ => 0) (fun _ => 0) idleSState = idleSState) ∧
    (idleSState.waitingForResult = false → idleSState.roundActive = false →
      ((idleSState.demoMode = true →
        (requestBet false 0 (fun _ => 0) (fun _ => 0) idleSState).roundActive = true ∧
        (requestBet false 0 (fun _ => 0) (fun _ => 0) idleSState).waitingForResult = false ∧
        (requestBet false 0 (fun _ => 0) (fun _ => 0) idleSState).sent = idleSState.sent) ∧
       (idleSState.demoMode = false →
        (requestBet false 0 (fun _ => 0) (fun _ => 0) idleSState).waitingForResult = true ∧
        (requestBet false 0 (fun _ => 0) (fun _ => 0) idleSState).roundActive = idleSState.roundActive ∧
        (requestBet false 0 (fun _ => 0) (fun _ => 0) idleSState).sent =
          idleSState.sent ++ ["action:bet"]))) :=
  requestBet_guard false 0 (fun _ => 0) (fun _ => 0) idleSState

/-! ### The mines host (`src/main.js`, second build)

Module-level state of the mines build, together with the embedded game
state and the outbound relay messages.  Control-panel setters are pure
UI and elided, except where the source routes state through them
(`setControlPanelBetMode` writes the module global `betButtonMode`;
`setAutoRunUIState(false)` clears `autoStopFinishing` and re-runs
`handleAutoSelectionChange`).  Timers are modelled as scheduled flags
(`autoResetScheduled`, `selectionDelay`) with separate fire
transitions.  Game callbacks (`onAutoSelectionChange`, `onChange`) are
processed from the emission lists the game functions return; each
emission's payload was computed against the same game state the
processing sees, matching the synchronous callback order of the
source. -/

/-- The bet button's dual role. -/
inductive BetMode
  | bet
  | cashout
deriving DecidableEq

/-- Control-panel mode. -/
inductive CPMode
  | manual
  | auto
deriving DecidableEq

/-- An entry of the demo auto-round `results` array. -/
structure AutoResult where
  row : Nat
  col : Nat
  bomb : Bool
deriving DecidableEq

/-- A pending `selectionDelayHandle` timeout and its payload. -/
inductive SelTask
  | autoReveal (results : List AutoResult)
  | manualReveal
deriving DecidableEq

/-- Module-level state of the mines host. -/
structure MState where
  demoMode : Bool
  suppressRelay : Bool
  betButtonMode : BetMode
  roundActive : Bool
  cashoutAvailable : Bool
  selectionPending : Bool
  selectionDelay : Option SelTask
  minesSelectionLocked : Bool
  controlPanelMode : CPMode
  autoSelectionCount : Nat
  storedAutoSelections : List (Nat × Nat)
  autoRunActive : Bool
  autoRunFlag : Bool
  autoRoundInProgress : Bool
  autoBetsRemaining : Option Nat
  autoResetScheduled : Bool
  autoStopShouldComplete : Bool
  autoStopFinishing : Bool
  manualRoundNeedsReset : Bool
  lastKnownGameState : Option StateView
  optsMines : Nat
  cpNumberOfBets : Option Nat
  cpMinesValue : Int
  cpMaxMines : Nat
  game : GameState
  sent : List String

/-- `sendRelayMessage(type, payload)`: suppressed in demo mode or while
relaying an inbound message. -/
def sendRelayMessage (ty : String) (s : MState) : MState :=
  if s.demoMode || s.suppressRelay then s
  else { s with sent := s.sent ++ [ty] }

/-- `setControlPanelBetMode(mode)`: writes the `betButtonMode` global
(the panel call itself is UI). -/
def setControlPanelBetMode (m : BetMode) (s : MState) : MState :=
  { s with betButtonMode := m }

/-- `clearSelectionDelay()`. -/
def clearSelectionDelay (s : MState) : MState :=
  { s with selectionDelay := none, selectionPending := false }

/-- `handleAutoSelectionChange(count)`. -/
def handleAutoSelectionChange (count : Nat) (s : MState) : MState :=
  let s1 := { s with autoSelectionCount := count }
  let s2 :=
    if s1.controlPanelMode = CPMode.auto then
      if 0 < count then
        { s1 with storedAutoSelections := getAutoSelectionCoordinates s1.game }
      else if s1.autoRunActive = false ∧ s1.autoRoundInProgress = false then
        { s1 with storedAutoSelections := getAutoSelectionCoordinates s1.game }
      else s1
    else s1
  if s2.controlPanelMode ≠ CPMode.auto then s2
  else if s2.roundActive = false then s2
  else
    let s3 :=
      if 0 < count ∧ s2.minesSelectionLocked = false then
        { s2 with minesSelectionLocked := true }
      else if count = 0 ∧ s2.autoRunActive = false then
        { s2 with minesSelectionLocked := false }
      else s2
    if s3.autoRunActive then s3
    else if s3.demoMode = false ∧ s3.suppressRelay = false ∧
        s3.controlPanelMode = CPMode.auto then
      sendRelayMessage "game:auto-selections" s3
    else s3

/-- `applyRoundInteractiveState(state)`. -/
def applyRoundInteractiveState (st : StateView) (s : MState) : MState :=
  if s.roundActive = false then s
  else
    let s1 := setControlPanelBetMode BetMode.cashout s
    if s1.selectionPending || st.waitingForChoice then
      { s1 with cashoutAvailable := decide (0 < st.revealedSafe) }
    else
      { s1 with cashoutAvailable := decide (0 < st.revealedSafe) }

/-- `finalizeRound({preserveAutoSelections})`. -/
def finalizeRound (preserve : Bool) (s : MState) : MState :=
  let s1 := clearSelectionDelay { s with
    roundActive := false
    cashoutAvailable := false }
  let s2 := setControlPanelBetMode BetMode.bet s1
  let s3 := { s2 with minesSelectionLocked := false }
  if preserve then
    { s3 with autoSelectionCount := s3.storedAutoSelections.length }
  else
    { s3 with autoSelectionCount := 0 }

/-- `handleGameStateChange(state)`. -/
def handleGameStateChange (st : StateView) (s : MState) : MState :=
  let s1 := { s with lastKnownGameState := some st }
  if s1.roundActive = false then s1
  else if st.gameOver then
    finalizeRound (decide (s1.controlPanelMode = CPMode.auto)) s1
  else applyRoundInteractiveState st s1

/-- Dispatch of the game's synchronous callbacks. -/
def processEmissions (s : MState) (es : List Emission) : MState :=
  es.foldl (fun s e =>
    match e with
    | Emission.autoSelectionChange n => handleAutoSelectionChange n s
    | Emission.stateChange v => handleGameStateChange v s) s

/-- `game.reset({preserveAutoSelections})` as called from the host. -/
def gameReset (preserve : Bool) (s : MState) : MState :=
  processEmissions { s with game := (reset s.game preserve).1 }
    (reset s.game preserve).2

/-- `game.clearAutoSelections()` as called from the host. -/
def gameClearAutoSelections (s : MState) : MState :=
  processEmissions { s with game := (clearAutoSelections s.game true).1 }
    (clearAutoSelections s.game true).2

/-- `game.applyAutoSelections(coords, { emit: true })` as called from
the host. -/
def gameApplyAutoSelections (coords : List (Nat × Nat)) (s : MState) : MState :=
  processEmissions
    { s with game := (applyAutoSelectionsFromCoordinates s.game coords true).1 }
    (applyAutoSelectionsFromCoordinates s.game coords true).2

/-- `game.setMines(mines)` as called from the host. -/
def gameSetMines (n : Int) (s : MState) : MState :=
  processEmissions { s with game := (setMines s.game n).1 }
    (setMines s.game n).2

/-- `setAutoRunUIState(active)`: for `active = true` everything is UI;
for `active = false` it clears `autoStopFinishing` and re-runs
`handleAutoSelectionChange(autoSelectionCount)`. -/
def setAutoRunUIState (active : Bool) (s : MState) : MState :=
  if active then s
  else
    let s1 := { s with autoStopFinishing := false }
    handleAutoSelectionChange s1.autoSelectionCount s1

/-- `prepareForNewRoundState({preserveAutoSelections})`. -/
def prepareForNewRoundState (preserve : Bool) (s : MState) : MState :=
  let s1 := clearSelectionDelay { s with
    roundActive := true
    cashoutAvailable := false }
  let s2 := setControlPanelBetMode BetMode.cashout s1
  let s3 := { s2 with minesSelectionLocked := false }
  let s4 :=
    if s3.controlPanelMode ≠ CPMode.auto then
      { s3 with manualRoundNeedsReset := false }
    else s3
  if preserve then
    { s4 with autoSelectionCount := s4.storedAutoSelections.length }
  else
    gameClearAutoSelections { s4 with autoSelectionCount := 0 }

/-- `stopAutoBetProcess({completed})`. -/
def stopAutoBetProcess (completed : Bool) (s : MState) : MState :=
  let s1 :=
    if s.selectionDelay ≠ none then
      { s with selectionDelay := none, selectionPending := false }
    else s
  let s2 := { s1 with autoResetScheduled := false }
  let wasActive := s2.autoRunActive
  let s3 := { s2 with
    autoRunActive := false
    autoRunFlag := false
    autoRoundInProgress := false
    autoStopShouldComplete := false }
  if wasActive = false ∧ completed = false then
    handleAutoSelectionChange s3.autoSelectionCount
      { s3 with autoStopFinishing := false }
  else
    let shouldPreserve := decide (s3.controlPanelMode = CPMode.auto)
    let s4 :=
      if shouldPreserve then
        if (getAutoSelectionCoordinates s3.game).isEmpty = false then
          { s3 with storedAutoSelections := getAutoSelectionCoordinates s3.game }
        else s3
      else s3
    let s5 := finalizeRound shouldPreserve s4
    let s6 := gameReset shouldPreserve s5
    let s7 := setAutoRunUIState false { s6 with autoStopFinishing := false }
    if shouldPreserve then
      let s8 := prepareForNewRoundState true s7
      if s8.storedAutoSelections.isEmpty = false then
        gameApplyAutoSelections s8.storedAutoSelections s8
      else s8
    else s7

/-- `startAutoRoundIfNeeded()`. -/
def startAutoRoundIfNeeded (s : MState) : MState × Bool :=
  if s.storedAutoSelections.isEmpty then (s, false)
  else
    let s1 :=
      if s.roundActive = false then
        prepareForNewRoundState true (gameReset true s)
      else s
    (gameApplyAutoSelections s1.storedAutoSelections s1, true)

/-- The demo `results` computation of `executeAutoBetRound`: at most
one bomb is drawn; `roll i` is the outcome of the `Math.random() < 0.15`
comparison for the `i`-th selection. -/
def computeAutoResults (roll : Nat → Bool) :
    List (Nat × Nat) → Nat → Bool → List AutoResult
  | [], _, _ => []
  | rc :: rest, i, bombAssigned =>
    let revealBomb := !bombAssigned && roll i
    { row := rc.1, col := rc.2, bomb := revealBomb } ::
      computeAutoResults roll rest (i + 1) (bombAssigned || revealBomb)

/-- `executeAutoBetRound({ensurePrepared})`. -/
def executeAutoBetRound (roll : Nat → Bool) (ensurePrepared : Bool)
    (s : MState) : MState :=
  if s.autoRunActive = false then s
  else if s.storedAutoSelections.isEmpty then stopAutoBetProcess false s
  else
    let sp := if ensurePrepared then startAutoRoundIfNeeded s else (s, true)
    if sp.2 = false then
      { stopAutoBetProcess sp.1.autoStopShouldComplete sp.1 with
        autoStopShouldComplete := false }
    else
      let s1 := sp.1
      if s1.storedAutoSelections.isEmpty then stopAutoBetProcess false s1
      else
        let s2 := clearSelectionDelay { s1 with
          autoRoundInProgress := true
          selectionPending := true }
        if s2.demoMode = false ∧ s2.suppressRelay = false then
          sendRelayMessage "game:auto-round-request" s2
        else
          { s2 with selectionDelay := some (SelTask.autoReveal
              (computeAutoResults roll s1.storedAutoSelections 0 false)) }

/-- `scheduleNextAutoBetRound()`. -/
def scheduleNextAutoBetRound (s : MState) : MState :=
  if s.autoRunActive = false then s
  else { s with autoResetScheduled := true }

/-- The `autoResetTimer` callback firing (no-op when the timer was
cancelled). -/
def autoResetTimerFire (roll : Nat → Bool) (s : MState) : MState :=
  if s.autoResetScheduled = false then s
  else
    let s1 := { s with autoResetScheduled := false }
    if s1.autoRunActive = false then s1
    else if s1.autoRunFlag = false ∨ s1.autoStopShouldComplete = true then
      if s1.demoMode = false ∧ s1.suppressRelay = false ∧
          s1.controlPanelMode = CPMode.auto ∧ s1.autoStopFinishing = true then
        s1
      else
        stopAutoBetProcess s1.autoStopShouldComplete
          { s1 with autoStopShouldComplete := false }
    else
      let s2 := setAutoRunUIState true { s1 with autoStopFinishing := false }
      executeAutoBetRound roll true s2

/-- `handleAutoRoundFinished()`: one cycle has completed. -/
def handleAutoRoundFinished (s : MState) : MState :=
  let s1 := { s with autoRoundInProgress := false }
  if s1.autoRunActive = false then s1
  else
    let s2 :=
      match s1.autoBetsRemaining with
      | some r => { s1 with autoBetsRemaining := some (r - 1) }
      | none => s1
    let s3 :=
      match s2.autoBetsRemaining with
      | some r =>
        if r = 0 then
          let shouldSignal := s2.autoStopShouldComplete = false
          let sa := setAutoRunUIState true { s2 with
            autoRunFlag := false
            autoStopShouldComplete := true
            autoStopFinishing := true }
          if shouldSignal ∧ sa.demoMode = false ∧ sa.suppressRelay = false then
            sendRelayMessage "action:stop-autobet" sa
          else sa
        else s2
      | none => s2
    scheduleNextAutoBetRound s3

/-- `beginAutoBetProcess()`.  `cpNumberOfBets` reflects
`getNumberOfBetsValue()`: `some b` when the configured count is a
finite number with floor `b > 0`, `none` otherwise. -/
def beginAutoBetProcess (roll : Nat → Bool) (s : MState) : MState :=
  if s.selectionPending = true ∨ s.autoSelectionCount = 0 then s
  else
    let selections := getAutoSelectionCoordinates s.game
    if selections.isEmpty then s
    else
      let s1 := { s with storedAutoSelections := selections }
      let s2 :=
        match s1.cpNumberOfBets with
        | some b =>
          if 0 < b then { s1 with autoBetsRemaining := some b }
          else { s1 with autoBetsRemaining := none }
        | none => { s1 with autoBetsRemaining := none }
      let s3 := { s2 with
        autoRunFlag := true
        autoRunActive := true
        autoRoundInProgress := false
        autoStopShouldComplete := false
        autoStopFinishing := false }
      let s4 :=
        if s3.demoMode = false ∧ s3.suppressRelay = false then
          sendRelayMessage "action:start-autobet"
            (sendRelayMessage "control:start-autobet" s3)
        else s3
      executeAutoBetRound roll true (setAutoRunUIState true s4)

/-- `markManualRoundForReset()`. -/
def markManualRoundForReset (s : MState) : MState :=
  if s.controlPanelMode = CPMode.manual then
    { s with manualRoundNeedsReset := true }
  else s

/-- `handleCashout()` (`showCashoutPopup` is visual). -/
def handleCashout (s : MState) : MState :=
  if s.roundActive = false ∨ s.cashoutAvailable = false then s
  else if s.demoMode = false ∧ s.suppressRelay = false then
    sendRelayMessage "action:cashout" s
  else
    let s1 := markManualRoundForReset s
    let s2 := { s1 with game := revealRemainingTiles s1.game }
    finalizeRound (decide (s2.controlPanelMode = CPMode.auto)) s2

/-- `normalizeMinesValue(value, maxMines)` on an integral value. -/
def normalizeMinesValue (v : Int) (mx : Nat) : Nat :=
  min (max 1 v).toNat mx

/-- `applyMinesOption(value, {syncGame})`. -/
def applyMinesOption (v : Int) (syncGame : Bool) (s : MState) : MState :=
  let mines := normalizeMinesValue v s.cpMaxMines
  let s1 := { s with optsMines := mines }
  if syncGame then gameSetMines (mines : Int) s1 else s1

/-- `performBet()`. -/
def performBet (s : MState) : MState :=
  let s1 := applyMinesOption s.cpMinesValue true s
  { prepareForNewRoundState false s1 with manualRoundNeedsReset := false }

/-- `handleBet()`. -/
def handleBet (s : MState) : MState :=
  if s.demoMode = false ∧ s.suppressRelay = false then
    sendRelayMessage "action:bet" s
  else performBet s

/-- `handleBetButtonClick()`. -/
def handleBetButtonClick (s : MState) : MState :=
  if s.betButtonMode = BetMode.cashout then handleCashout s else handleBet s

/-- The `modechange` listener registered on the control panel. -/
def modeChangeEvent (next : CPMode) (s : MState) : MState :=
  let previousMode := s.controlPanelMode
  let s1 :=
    if s.controlPanelMode = CPMode.auto then
      { s with storedAutoSelections := getAutoSelectionCoordinates s.game }
    else s
  let s2 := { s1 with controlPanelMode := next }
  if next ≠ CPMode.auto then
    let s3 := if s2.autoRunActive then stopAutoBetProcess false s2 else s2
    let s4 := gameClearAutoSelections { s3 with autoSelectionCount := 0 }
    finalizeRound false s4
  else
    let s3 :=
      if previousMode = CPMode.manual ∧ s2.manualRoundNeedsReset = true then
        { gameReset true s2 with manualRoundNeedsReset := false }
      else s2
    let s4 :=
      if s3.roundActive = false ∧ s3.autoRunActive = false then
        prepareForNewRoundState true s3
      else s3
    let s5 :=
      if s4.storedAutoSelections.isEmpty = false then
        gameApplyAutoSelections s4.storedAutoSelections s4
      else s4
    handleAutoSelectionChange s5.storedAutoSelections.length s5

/-! Projection-over-`ite` distribution lemmas, so that `simp` can push
record projections through the branching of the host functions. -/

@[simp] theorem MState_ite_demoMode (c : Prop) [Decidable c] (a b : MState) :
    (if c then a else b).demoMode = if c then a.demoMode else b.demoMode :=
  apply_ite MState.demoMode c a b

@[simp] theorem MState_ite_suppressRelay (c : Prop) [Decidable c] (a b : MState) :
    (if c then a else b).suppressRelay = if c then a.suppressRelay else b.suppressRelay :=
  apply_ite MState.suppressRelay c a b

@[simp] theorem MState_ite_betButtonMode (c : Prop) [Decidable c] (a b : MState) :
    (if c then a else b).betButtonMode = if c then a.betButtonMode else b.betButtonMode :=
  apply_ite MState.betButtonMode c a b

@[simp] theorem MState_ite_roundActive (c : Prop) [Decidable c] (a b : MState) :
    (if c then a else b).roundActive = if c then a.roundActive else b.roundActive :=
  apply_ite MState.roundActive c a b

@[simp] theorem MState_ite_cashoutAvailable (c : Prop) [Decidable c] (a b : MState) :
    (if c then a else b).cashoutAvailable = if c then a.cashoutAvailable else b.cashoutAvailable :=
  apply_ite MState.cashoutAvailable c a b

@[simp] theorem MState_ite_selectionPending (c : Prop) [Decidable c] (a b : MState) :
    (if c then a else b).selectionPending = if c then a.selectionPending else b.selectionPending :=
  apply_ite MState.selectionPending c a b

@[simp] theorem MState_ite_selectionDelay (c : Prop) [Decidable c] (a b : MState) :
    (if c then a else b).selectionDelay = if c then a.selectionDelay else b.selectionDelay :=
  apply_ite MState.selectionDelay c a b

@[simp] theorem MState_ite_minesSelectionLocked (c : Prop) [Decidable c] (a b : MState) :
    (if c then a else b).minesSelectionLocked = if c then a.minesSelectionLocked else b.minesSelectionLocked :=
  apply_ite MState.minesSelectionLocked c a b

@[simp] theorem MState_ite_controlPanelMode (c : Prop) [Decidable c] (a b : MState) :
    (if c then a else b).controlPanelMode = if c then a.controlPanelMode else b.controlPanelMode :=
  apply_ite MState.controlPanelMode c a b

@[simp] theorem MState_ite_autoSelectionCount (c : Prop) [Decidable c] (a b : MState) :
    (if c then a else b).autoSelectionCount = if c then a.autoSelectionCount else b.autoSelectionCount :=
  apply_ite MState.autoSelectionCount c a b

@[simp] theorem MState_ite_storedAutoSelections (c : Prop) [Decidable c] (a b : MState) :
    (if c then a else b).storedAutoSelections = if c then a.storedAutoSelections else b.storedAutoSelections :=
  apply_ite MState.storedAutoSelections c a b

@[simp] theorem MState_ite_autoRunActive (c : Prop) [Decidable c] (a b : MState) :
    (if c then a else b).autoRunActive = if c then a.autoRunActive else b.autoRunActive :=
  apply_ite MState.autoRunActive c a b

@[simp] theorem MState_ite_autoRunFlag (c : Prop) [Decidable c] (a b : MState) :
    (if c then a else b).autoRunFlag = if c then a.autoRunFlag else b.autoRunFlag :=
  apply_ite MState.autoRunFlag c a b

@[simp] theorem MState_ite_autoRoundInProgress (c : Prop) [Decidable c] (a b : MState) :
    (if c then a else b).autoRoundInProgress = if c then a.autoRoundInProgress else b.autoRoundInProgress :=
  apply_ite MState.autoRoundInProgress c a b

@[simp] theorem MState_ite_autoBetsRemaining (c : Prop) [Decidable c] (a b : MState) :
    (if c then a else b).autoBetsRemaining = if c then a.autoBetsRemaining else b.autoBetsRemaining :=
  apply_ite MState.autoBetsRemaining c a b

@[simp] theorem MState_ite_autoResetScheduled (c : Prop) [Decidable c] (a b : MState) :
    (if c then a else b).autoResetScheduled = if c then a.autoResetScheduled else b.autoResetScheduled :=
  apply_ite MState.autoResetScheduled c a b

@[simp] theorem MState_ite_autoStopShouldComplete (c : Prop) [Decidable c] (a b : MState) :
    (if c then a else b).autoStopShouldComplete = if c then a.autoStopShouldComplete else b.autoStopShouldComplete :=
  apply_ite MState.autoStopShouldComplete c a b

@[simp] theorem MState_ite_autoStopFinishing (c : Prop) [Decidable c] (a b : MState) :
    (if c then a else b).autoStopFinishing = if c then a.autoStopFinishing else b.autoStopFinishing :=
  apply_ite MState.autoStopFinishing c a b

@[simp] theorem MState_ite_manualRoundNeedsReset (c : Prop) [Decidable c] (a b : MState) :
    (if c then a else b).manualRoundNeedsReset = if c then a.manualRoundNeedsReset else b.manualRoundNeedsReset :=
  apply_ite MState.manualRoundNeedsReset c a b

@[simp] theorem MState_ite_lastKnownGameState (c : Prop) [Decidable c] (a b : MState) :
    (if c then a else b).lastKnownGameState = if c then a.lastKnownGameState else b.lastKnownGameState :=
  apply_ite MState.lastKnownGameState c a b

@[simp] theorem MState_ite_optsMines (c : Prop) [Decidable c] (a b : MState) :
    (if c then a else b).optsMines = if c then a.optsMines else b.optsMines :=
  apply_ite MState.optsMines c a b

@[simp] theorem MState_ite_cpNumberOfBets (c : Prop) [Decidable c] (a b : MState) :
    (if c then a else b).cpNumberOfBets = if c then a.cpNumberOfBets else b.cpNumberOfBets :=
  apply_ite MState.cpNumberOfBets c a b

@[simp] theorem MState_ite_cpMinesValue (c : Prop) [Decidable c] (a b : MState) :
    (if c then a else b).cpMinesValue = if c then a.cpMinesValue else b.cpMinesValue :=
  apply_ite MState.cpMinesValue c a b

@[simp] theorem MState_ite_cpMaxMines (c : Prop) [Decidable c] (a b : MState) :
    (if c then a else b).cpMaxMines = if c then a.cpMaxMines else b.cpMaxMines :=
  apply_ite MState.cpMaxMines c a b

@[simp] theorem MState_ite_game (c : Prop) [Decidable c] (a b : MState) :
    (if c then a else b).game = if c then a.game else b.game :=
  apply_ite MState.game c a b

@[simp] theorem MState_ite_sent (c : Prop) [Decidable c] (a b : MState) :
    (if c then a else b).sent = if c then a.sent else b.sent :=
  apply_ite MState.sent c a b

@[simp] theorem GameState_ite_grid (c : Prop) [Decidable c] (a b : GameState) :
    (if c then a else b).grid = if c then a.grid else b.grid :=
  apply_ite GameState.grid c a b

@[simp] theorem GameState_ite_mines (c : Prop) [Decidable c] (a b : GameState) :
    (if c then a else b).mines = if c then a.mines else b.mines :=
  apply_ite GameState.mines c a b

@[simp] theorem GameState_ite_tiles (c : Prop) [Decidable c] (a b : GameState) :
    (if c then a else b).tiles = if c then a.tiles else b.tiles :=
  apply_ite GameState.tiles c a b

@[simp] theorem GameState_ite_gameOver (c : Prop) [Decidable c] (a b : GameState) :
    (if c then a else b).gameOver = if c then a.gameOver else b.gameOver :=
  apply_ite GameState.gameOver c a b

@[simp] theorem GameState_ite_revealedSafe (c : Prop) [Decidable c] (a b : GameState) :
    (if c then a else b).revealedSafe = if c then a.revealedSafe else b.revealedSafe :=
  apply_ite GameState.revealedSafe c a b

@[simp] theorem GameState_ite_totalSafe (c : Prop) [Decidable c] (a b : GameState) :
    (if c then a else b).totalSafe = if c then a.totalSafe else b.totalSafe :=
  apply_ite GameState.totalSafe c a b

@[simp] theorem GameState_ite_waitingForChoice (c : Prop) [Decidable c] (a b : GameState) :
    (if c then a else b).waitingForChoice = if c then a.waitingForChoice else b.waitingForChoice :=
  apply_ite GameState.waitingForChoice c a b

@[simp] theorem GameState_ite_selectedTile (c : Prop) [Decidable c] (a b : GameState) :
    (if c then a else b).selectedTile = if c then a.selectedTile else b.selectedTile :=
  apply_ite GameState.selectedTile c a b

@[simp] theorem GameState_ite_autoSelectionOrder (c : Prop) [Decidable c] (a b : GameState) :
    (if c then a else b).autoSelectionOrder = if c then a.autoSelectionOrder else b.autoSelectionOrder :=
  apply_ite GameState.autoSelectionOrder c a b

@[simp] theorem GameState_ite_scheduledFlips (c : Prop) [Decidable c] (a b : GameState) :
    (if c then a else b).scheduledFlips = if c then a.scheduledFlips else b.scheduledFlips :=
  apply_ite GameState.scheduledFlips c a b

@[simp] theorem GameState_ite_bombPositions (c : Prop) [Decidable c] (a b : GameState) :
    (if c then a else b).bombPositions = if c then a.bombPositions else b.bombPositions :=
  apply_ite GameState.bombPositions c a b

@[simp] theorem GameState_ite_shouldPlayStartSound (c : Prop) [Decidable c] (a b : GameState) :
    (if c then a else b).shouldPlayStartSound = if c then a.shouldPlayStartSound else b.shouldPlayStartSound :=
  apply_ite GameState.shouldPlayStartSound c a b

@[simp] theorem GameState_ite_forcedRevealRequests (c : Prop) [Decidable c] (a b : GameState) :
    (if c then a else b).forcedRevealRequests = if c then a.forcedRevealRequests else b.forcedRevealRequests :=
  apply_ite GameState.forcedRevealRequests c a b

/-! Frame lemmas: which module globals each host function leaves
untouched. -/

theorem handleAutoSelectionChange_frame (n : Nat) (s : MState) :
    (handleAutoSelectionChange n s).demoMode = s.demoMode ∧
    (handleAutoSelectionChange n s).suppressRelay = s.suppressRelay ∧
    (handleAutoSelectionChange n s).controlPanelMode = s.controlPanelMode ∧
    (handleAutoSelectionChange n s).betButtonMode = s.betButtonMode ∧
    (handleAutoSelectionChange n s).roundActive = s.roundActive ∧
    (handleAutoSelectionChange n s).cashoutAvailable = s.cashoutAvailable ∧
    (handleAutoSelectionChange n s).selectionPending = s.selectionPending ∧
    (handleAutoSelectionChange n s).selectionDelay = s.selectionDelay ∧
    (handleAutoSelectionChange n s).autoRunActive = s.autoRunActive ∧
    (handleAutoSelectionChange n s).autoRunFlag = s.autoRunFlag ∧
    (handleAutoSelectionChange n s).autoRoundInProgress = s.autoRoundInProgress ∧
    (handleAutoSelectionChange n s).autoBetsRemaining = s.autoBetsRemaining ∧
    (handleAutoSelectionChange n s).autoResetScheduled = s.autoResetScheduled ∧
    (handleAutoSelectionChange n s).autoStopShouldComplete = s.autoStopShouldComplete ∧
    (handleAutoSelectionChange n s).autoStopFinishing = s.autoStopFinishing ∧
    (handleAutoSelectionChange n s).manualRoundNeedsReset = s.manualRoundNeedsReset ∧
    (handleAutoSelectionChange n s).game = s.game := by
  simp [handleAutoSelectionChange, sendRelayMessage]

theorem applyRoundInteractiveState_frame (st : StateView) (s : MState) :
    (applyRoundInteractiveState st s).demoMode = s.demoMode ∧
    (applyRoundInteractiveState st s).suppressRelay = s.suppressRelay ∧
    (applyRoundInteractiveState st s).controlPanelMode = s.controlPanelMode ∧
    (applyRoundInteractiveState st s).roundActive = s.roundActive ∧
    (applyRoundInteractiveState st s).selectionPending = s.selectionPending ∧
    (applyRoundInteractiveState st s).selectionDelay = s.selectionDelay ∧
    (applyRoundInteractiveState st s).minesSelectionLocked = s.minesSelectionLocked ∧
    (applyRoundInteractiveState st s).autoSelectionCount = s.autoSelectionCount ∧
    (applyRoundInteractiveState st s).storedAutoSelections = s.storedAutoSelections ∧
    (applyRoundInteractiveState st s).autoRunActive = s.autoRunActive ∧
    (applyRoundInteractiveState st s).autoRunFlag = s.autoRunFlag ∧
    (applyRoundInteractiveState st s).autoRoundInProgress = s.autoRoundInProgress ∧
    (applyRoundInteractiveState st s).autoBetsRemaining = s.autoBetsRemaining ∧
    (applyRoundInteractiveState st s).autoResetScheduled = s.autoResetScheduled ∧
    (applyRoundInteractiveState st s).autoStopShouldComplete = s.autoStopShouldComplete ∧
    (applyRoundInteractiveState st s).autoStopFinishing = s.autoStopFinishing ∧
    (applyRoundInteractiveState st s).manualRoundNeedsReset = s.manualRoundNeedsReset ∧
    (applyRoundInteractiveState st s).game = s.game ∧
    (applyRoundInteractiveState st s).sent = s.sent := by
  simp [applyRoundInteractiveState, setControlPanelBetMode]

theorem finalizeRound_frame (p : Bool) (s : MState) :
    (finalizeRound p s).demoMode = s.demoMode ∧
    (finalizeRound p s).suppressRelay = s.suppressRelay ∧
    (finalizeRound p s).controlPanelMode = s.controlPanelMode ∧
    (finalizeRound p s).autoRunActive = s.autoRunActive ∧
    (finalizeRound p s).autoRunFlag = s.autoRunFlag ∧
    (finalizeRound p s).autoRoundInProgress = s.autoRoundInProgress ∧
    (finalizeRound p s).autoBetsRemaining = s.autoBetsRemaining ∧
    (finalizeRound p s).autoResetScheduled = s.autoResetScheduled ∧
    (finalizeRound p s).autoStopShouldComplete = s.autoStopShouldComplete ∧
    (finalizeRound p s).autoStopFinishing = s.autoStopFinishing ∧
    (finalizeRound p s).manualRoundNeedsReset = s.manualRoundNeedsReset ∧
    (finalizeRound p s).storedAutoSelections = s.storedAutoSelections ∧
    (finalizeRound p s).game = s.game ∧
    (finalizeRound p s).sent = s.sent := by
  simp [finalizeRound, clearSelectionDelay, setControlPanelBetMode]

theorem handleGameStateChange_frame (st : StateView) (s : MState) :
    (handleGameStateChange st s).demoMode = s.demoMode ∧
    (handleGameStateChange st s).suppressRelay = s.suppressRelay ∧
    (handleGameStateChange st s).controlPanelMode = s.controlPanelMode ∧
    (handleGameStateChange st s).autoRunActive = s.autoRunActive ∧
    (handleGameStateChange st s).autoRunFlag = s.autoRunFlag ∧
    (handleGameStateChange st s).autoRoundInProgress = s.autoRoundInProgress ∧
    (handleGameStateChange st s).autoBetsRemaining = s.autoBetsRemaining ∧
    (handleGameStateChange st s).autoResetScheduled = s.autoResetScheduled ∧
    (handleGameStateChange st s).autoStopShouldComplete = s.autoStopShouldComplete ∧
    (handleGameStateChange st s).autoStopFinishing = s.autoStopFinishing ∧
    (handleGameStateChange st s).manualRoundNeedsReset = s.manualRoundNeedsReset ∧
    (handleGameStateChange st s).storedAutoSelections = s.storedAutoSelections ∧
    (handleGameStateChange st s).game = s.game ∧
    (handleGameStateChange st s).sent = s.sent := by
  simp [handleGameStateChange, finalizeRound, applyRoundInteractiveState,
    clearSelectionDelay, setControlPanelBetMode]

theorem processEmissions_frame (es : List Emission) :
    ∀ s : MState,
    (processEmissions s es).demoMode = s.demoMode ∧
    (processEmissions s es).suppressRelay = s.suppressRelay ∧
    (processEmissions s es).controlPanelMode = s.controlPanelMode ∧
    (processEmissions s es).autoRunActive = s.autoRunActive ∧
    (processEmissions s es).autoRunFlag = s.autoRunFlag ∧
    (processEmissions s es).autoRoundInProgress = s.autoRoundInProgress ∧
    (processEmissions s es).autoBetsRemaining = s.autoBetsRemaining ∧
    (processEmissions s es).autoResetScheduled = s.autoResetScheduled ∧
    (processEmissions s es).autoStopShouldComplete = s.autoStopShouldComplete ∧
    (processEmissions s es).autoStopFinishing = s.autoStopFinishing ∧
    (processEmissions s es).manualRoundNeedsReset = s.manualRoundNeedsReset ∧
    (processEmissions s es).game = s.game := by
  induction es with
  | nil =>
    intro s
    simp [processEmissions]
  | cons e rest ih =>
    intro s
    have hstep : processEmissions s (e :: rest) =
        processEmissions
          (match e with
           | Emission.autoSelectionChange n => handleAutoSelectionChange n s
           | Emission.stateChange v => handleGameStateChange v s) rest := by
      simp [processEmissions]
    rw [hstep]
    rcases e with n | v
    · have hf := handleAutoSelectionChange_frame n s
      have hr := ih (handleAutoSelectionChange n s)
      obtain ⟨f1, f2, f3, _, _, _, _, _, f9, f10, f11, f12, f13, f14, f15, f16, f17⟩ := hf
      obtain ⟨r1, r2, r3, r4, r5, r6, r7, r8, r9, r10, r11, r12⟩ := hr
      exact ⟨r1.trans f1, r2.trans f2, r3.trans f3, r4.trans f9,
        r5.trans f10, r6.trans f11, r7.trans f12, r8.trans f13,
        r9.trans f14, r10.trans f15, r11.trans f16, r12.trans f17⟩
    · have hf := handleGameStateChange_frame v s
      have hr := ih (handleGameStateChange v s)
      obtain ⟨f1, f2, f3, f4, f5, f6, f7, f8, f9, f10, f11, _, f13, _⟩ := hf
      obtain ⟨r1, r2, r3, r4, r5, r6, r7, r8, r9, r10, r11, r12⟩ := hr
      exact ⟨r1.trans f1, r2.trans f2, r3.trans f3, r4.trans f4,
        r5.trans f5, r6.trans f6, r7.trans f7, r8.trans f8,
        r9.trans f9, r10.trans f10, r11.trans f11, r12.trans f13⟩

theorem gameReset_frame (p : Bool) (s : MState) :
    (gameReset p s).demoMode = s.demoMode ∧
    (gameReset p s).suppressRelay = s.suppressRelay ∧
    (gameReset p s).controlPanelMode = s.controlPanelMode ∧
    (gameReset p s).autoRunActive = s.autoRunActive ∧
    (gameReset p s).autoRunFlag = s.autoRunFlag ∧
    (gameReset p s).autoRoundInProgress = s.autoRoundInProgress ∧
    (gameReset p s).autoBetsRemaining = s.autoBetsRemaining ∧
    (gameReset p s).autoResetScheduled = s.autoResetScheduled ∧
    (gameReset p s).autoStopShouldComplete = s.autoStopShouldComplete ∧
    (gameReset p s).autoStopFinishing = s.autoStopFinishing ∧
    (gameReset p s).manualRoundNeedsReset = s.manualRoundNeedsReset ∧
    (gameReset p s).game = (reset s.game p).1 := by
  unfold gameReset
  have hp := processEmissions_frame (reset s.game p).2
    { s with game := (reset s.game p).1 }
  simpa using hp

theorem gameClearAutoSelections_frame (s : MState) :
    (gameClearAutoSelections s).demoMode = s.demoMode ∧
    (gameClearAutoSelections s).suppressRelay = s.suppressRelay ∧
    (gameClearAutoSelections s).controlPanelMode = s.controlPanelMode ∧
    (gameClearAutoSelections s).autoRunActive = s.autoRunActive ∧
    (gameClearAutoSelections s).autoRunFlag = s.autoRunFlag ∧
    (gameClearAutoSelections s).autoRoundInProgress = s.autoRoundInProgress ∧
    (gameClearAutoSelections s).autoBetsRemaining = s.autoBetsRemaining ∧
    (gameClearAutoSelections s).autoResetScheduled = s.autoResetScheduled ∧
    (gameClearAutoSelections s).autoStopShouldComplete = s.autoStopShouldComplete ∧
    (gameClearAutoSelections s).autoStopFinishing = s.autoStopFinishing ∧
    (gameClearAutoSelections s).manualRoundNeedsReset = s.manualRoundNeedsReset ∧
    (gameClearAutoSelections s).game = (clearAutoSelections s.game true).1 := by
  unfold gameClearAutoSelections
  have hp := processEmissions_frame (clearAutoSelections s.game true).2
    { s with game := (clearAutoSelections s.game true).1 }
  simpa using hp

theorem gameApplyAutoSelections_frame (coords : List (Nat × Nat)) (s : MState) :
    (gameApplyAutoSelections coords s).demoMode = s.demoMode ∧
    (gameApplyAutoSelections coords s).suppressRelay = s.suppressRelay ∧
    (gameApplyAutoSelections coords s).controlPanelMode = s.controlPanelMode ∧
    (gameApplyAutoSelections coords s).autoRunActive = s.autoRunActive ∧
    (gameApplyAutoSelections coords s).autoRunFlag = s.autoRunFlag ∧
    (gameApplyAutoSelections coords s).autoRoundInProgress = s.autoRoundInProgress ∧
    (gameApplyAutoSelections coords s).autoBetsRemaining = s.autoBetsRemaining ∧
    (gameApplyAutoSelections coords s).autoResetScheduled = s.autoResetScheduled ∧
    (gameApplyAutoSelections coords s).autoStopShouldComplete = s.autoStopShouldComplete ∧
    (gameApplyAutoSelections coords s).autoStopFinishing = s.autoStopFinishing ∧
    (gameApplyAutoSelections coords s).manualRoundNeedsReset = s.manualRoundNeedsReset ∧
    (gameApplyAutoSelections coords s).game = (applyAutoSelectionsFromCoordinates s.game coords true).1 := by
  unfold gameApplyAutoSelections
  have hp := processEmissions_frame (applyAutoSelectionsFromCoordinates s.game coords true).2
    { s with game := (applyAutoSelectionsFromCoordinates s.game coords true).1 }
  simpa using hp

theorem gameSetMines_frame (n : Int) (s : MState) :
    (gameSetMines n s).demoMode = s.demoMode ∧
    (gameSetMines n s).suppressRelay = s.suppressRelay ∧
    (gameSetMines n s).controlPanelMode = s.controlPanelMode ∧
    (gameSetMines n s).autoRunActive = s.autoRunActive ∧
    (gameSetMines n s).autoRunFlag = s.autoRunFlag ∧
    (gameSetMines n s).autoRoundInProgress = s.autoRoundInProgress ∧
    (gameSetMines n s).autoBetsRemaining = s.autoBetsRemaining ∧
    (gameSetMines n s).autoResetScheduled = s.autoResetScheduled ∧
    (gameSetMines n s).autoStopShouldComplete = s.autoStopShouldComplete ∧
    (gameSetMines n s).autoStopFinishing = s.autoStopFinishing ∧
    (gameSetMines n s).manualRoundNeedsReset = s.manualRoundNeedsReset ∧
    (gameSetMines n s).game = (setMines s.game n).1 := by
  unfold gameSetMines
  have hp := processEmissions_frame (setMines s.game n).2
    { s with game := (setMines s.game n).1 }
  simpa using hp

/-! The frame facts exported field-by-field as `simp` lemmas, so the
composite host flows reduce mechanically. -/

@[simp] theorem handleAutoSelectionChange_demoMode (n : Nat) (s : MState) :
    (handleAutoSelectionChange n s).demoMode = s.demoMode :=
  (handleAutoSelectionChange_frame n s).1

@[simp] theorem handleAutoSelectionChange_suppressRelay (n : Nat) (s : MState) :
    (handleAutoSelectionChange n s).suppressRelay = s.suppressRelay :=
  (handleAutoSelectionChange_frame n s).2.1

@[simp] theorem handleAutoSelectionChange_controlPanelMode (n : Nat) (s : MState) :
    (handleAutoSelectionChange n s).controlPanelMode = s.controlPanelMode :=
  (handleAutoSelectionChange_frame n s).2.2.1

@[simp] theorem handleAutoSelectionChange_betButtonMode (n : Nat) (s : MState) :
    (handleAutoSelectionChange n s).betButtonMode = s.betButtonMode :=
  (handleAutoSelectionChange_frame n s).2.2.2.1

@[simp] theorem handleAutoSelectionChange_roundActive (n : Nat) (s : MState) :
    (handleAutoSelectionChange n s).roundActive = s.roundActive :=
  (handleAutoSelectionChange_frame n s).2.2.2.2.1

@[simp] theorem handleAutoSelectionChange_cashoutAvailable (n : Nat) (s : MState) :
    (handleAutoSelectionChange n s).cashoutAvailable = s.cashoutAvailable :=
  (handleAutoSelectionChange_frame n s).2.2.2.2.2.1

@[simp] theorem handleAutoSelectionChange_selectionPending (n : Nat) (s : MState) :
    (handleAutoSelectionChange n s).selectionPending = s.selectionPending :=
  (handleAutoSelectionChange_frame n s).2.2.2.2.2.2.1

@[simp] theorem handleAutoSelectionChange_selectionDelay (n : Nat) (s : MState) :
    (handleAutoSelectionChange n s).selectionDelay = s.selectionDelay :=
  (handleAutoSelectionChange_frame n s).2.2.2.2.2.2.2.1

@[simp] theorem handleAutoSelectionChange_autoRunActive (n : Nat) (s : MState) :
    (handleAutoSelectionChange n s).autoRunActive = s.autoRunActive :=
  (handleAutoSelectionChange_frame n s).2.2.2.2.2.2.2.2.1

@[simp] theorem handleAutoSelectionChange_autoRunFlag (n : Nat) (s : MState) :
    (handleAutoSelectionChange n s).autoRunFlag = s.autoRunFlag :=
  (handleAutoSelectionChange_frame n s).2.2.2.2.2.2.2.2.2.1

@[simp] theorem handleAutoSelectionChange_autoRoundInProgress (n : Nat) (s : MState) :
    (handleAutoSelectionChange n s).autoRoundInProgress = s.autoRoundInProgress :=
  (handleAutoSelectionChange_frame n s).2.2.2.2.2.2.2.2.2.2.1

@[simp] theorem handleAutoSelectionChange_autoBetsRemaining (n : Nat) (s : MState) :
    (handleAutoSelectionChange n s).autoBetsRemaining = s.autoBetsRemaining :=
  (handleAutoSelectionChange_frame n s).2.2.2.2.2.2.2.2.2.2.2.1

@[simp] theorem handleAutoSelectionChange_autoResetScheduled (n : Nat) (s : MState) :
    (handleAutoSelectionChange n s).autoResetScheduled = s.autoResetScheduled :=
  (handleAutoSelectionChange_frame n s).2.2.2.2.2.2.2.2.2.2.2.2.1

@[simp] theorem handleAutoSelectionChange_autoStopShouldComplete (n : Nat) (s : MState) :
    (handleAutoSelectionChange n s).autoStopShouldComplete = s.autoStopShouldComplete :=
  (handleAutoSelectionChange_frame n s).2.2.2.2.2.2.2.2.2.2.2.2.2.1

@[simp] theorem handleAutoSelectionChange_autoStopFinishing (n : Nat) (s : MState) :
    (handleAutoSelectionChange n s).autoStopFinishing = s.autoStopFinishing :=
  (handleAutoSelectionChange_frame n s).2.2.2.2.2.2.2.2.2.2.2.2.2.2.1

@[simp] theorem handleAutoSelectionChange_manualRoundNeedsReset (n : Nat) (s : MState) :
    (handleAutoSelectionChange n s).manualRoundNeedsReset = s.manualRoundNeedsReset :=
  (handleAutoSelectionChange_frame n s).2.2.2.2.2.2.2.2.2.2.2.2.2.2.2.1

@[simp] theorem handleAutoSelectionChange_game (n : Nat) (s : MState) :
    (handleAutoSelectionChange n s).game = s.game :=
  (handleAutoSelectionChange_frame n s).2.2.2.2.2.2.2.2.2.2.2.2.2.2.2.2

@[simp] theorem applyRoundInteractiveState_demoMode (st : StateView) (s : MState) :
    (applyRoundInteractiveState st s).demoMode = s.demoMode :=
  (applyRoundInteractiveState_frame st s).1

@[simp] theorem applyRoundInteractiveState_suppressRelay (st : StateView) (s : MState) :
    (applyRoundInteractiveState st s).suppressRelay = s.suppressRelay :=
  (applyRoundInteractiveState_frame st s).2.1

@[simp] theorem applyRoundInteractiveState_controlPanelMode (st : StateView) (s : MState) :
    (applyRoundInteractiveState st s).controlPanelMode = s.controlPanelMode :=
  (applyRoundInteractiveState_frame st s).2.2.1

@[simp] theorem applyRoundInteractiveState_roundActive (st : StateView) (s : MState) :
    (applyRoundInteractiveState st s).roundActive = s.roundActive :=
  (applyRoundInteractiveState_frame st s).2.2.2.1

@[simp] theorem applyRoundInteractiveState_selectionPending (st : StateView) (s : MState) :
    (applyRoundInteractiveState st s).selectionPending = s.selectionPending :=
  (applyRoundInteractiveState_frame st s).2.2.2.2.1

@[simp] theorem applyRoundInteractiveState_selectionDelay (st : StateView) (s : MState) :
    (applyRoundInteractiveState st s).selectionDelay = s.selectionDelay :=
  (applyRoundInteractiveState_frame st s).2.2.2.2.2.1

@[simp] theorem applyRoundInteractiveState_minesSelectionLocked (st : StateView) (s : MState) :
    (applyRoundInteractiveState st s).minesSelectionLocked = s.minesSelectionLocked :=
  (applyRoundInteractiveState_frame st s).2.2.2.2.2.2.1

@[simp] theorem applyRoundInteractiveState_autoSelectionCount (st : StateView) (s : MState) :
    (applyRoundInteractiveState st s).autoSelectionCount = s.autoSelectionCount :=
  (applyRoundInteractiveState_frame st s).2.2.2.2.2.2.2.1

@[simp] theorem applyRoundInteractiveState_storedAutoSelections (st : StateView) (s : MState) :
    (applyRoundInteractiveState st s).storedAutoSelections = s.storedAutoSelections :=
  (applyRoundInteractiveState_frame st s).2.2.2.2.2.2.2.2.1

@[simp] theorem applyRoundInteractiveState_autoRunActive (st : StateView) (s : MState) :
    (applyRoundInteractiveState st s).autoRunActive = s.autoRunActive :=
  (applyRoundInteractiveState_frame st s).2.2.2.2.2.2.2.2.2.1

@[simp] theorem applyRoundInteractiveState_autoRunFlag (st : StateView) (s : MState) :
    (applyRoundInteractiveState st s).autoRunFlag = s.autoRunFlag :=
  (applyRoundInteractiveState_frame st s).2.2.2.2.2.2.2.2.2.2.1

@[simp] theorem applyRoundInteractiveState_autoRoundInProgress (st : StateView) (s : MState) :
    (applyRoundInteractiveState st s).autoRoundInProgress = s.autoRoundInProgress :=
  (applyRoundInteractiveState_frame st s).2.2.2.2.2.2.2.2.2.2.2.1

@[simp] theorem applyRoundInteractiveState_autoBetsRemaining (st : StateView) (s : MState) :
    (applyRoundInteractiveState st s).autoBetsRemaining = s.autoBetsRemaining :=
  (applyRoundInteractiveState_frame st s).2.2.2.2.2.2.2.2.2.2.2.2.1

@[simp] theorem applyRoundInteractiveState_autoResetScheduled (st : StateView) (s : MState) :
    (applyRoundInteractiveState st s).autoResetScheduled = s.autoResetScheduled :=
  (applyRoundInteractiveState_frame st s).2.2.2.2.2.2.2.2.2.2.2.2.2.1

@[simp] theorem applyRoundInteractiveState_autoStopShouldComplete (st : StateView) (s : MState) :
    (applyRoundInteractiveState st s).autoStopShouldComplete = s.autoStopShouldComplete :=
  (applyRoundInteractiveState_frame st s).2.2.2.2.2.2.2.2.2.2.2.2.2.2.1

@[simp] theorem applyRoundInteractiveState_autoStopFinishing (st : StateView) (s : MState) :
    (applyRoundInteractiveState st s).autoStopFinishing = s.autoStopFinishing :=
  (applyRoundInteractiveState_frame st s).2.2.2.2.2.2.2.2.2.2.2.2.2.2.2.1

@[simp] theorem applyRoundInteractiveState_manualRoundNeedsReset (st : StateView) (s : MState) :
    (applyRoundInteractiveState st s).manualRoundNeedsReset = s.manualRoundNeedsReset :=
  (applyRoundInteractiveState_frame st s).2.2.2.2.2.2.2.2.2.2.2.2.2.2.2.2.1

@[simp] theorem applyRoundInteractiveState_game (st : StateView) (s : MState) :
    (applyRoundInteractiveState st s).game = s.game :=
  (applyRoundInteractiveState_frame st s).2.2.2.2.2.2.2.2.2.2.2.2.2.2.2.2.2.1

@[simp] theorem applyRoundInteractiveState_sent (st : StateView) (s : MState) :
    (applyRoundInteractiveState st s).sent = s.sent :=
  (applyRoundInteractiveState_frame st s).2.2.2.2.2.2.2.2.2.2.2.2.2.2.2.2.2.2

@[simp] theorem finalizeRound_demoMode (p : Bool) (s : MState) :
    (finalizeRound p s).demoMode = s.demoMode :=
  (finalizeRound_frame p s).1

@[simp] theorem finalizeRound_suppressRelay (p : Bool) (s : MState) :
    (finalizeRound p s).suppressRelay = s.suppressRelay :=
  (finalizeRound_frame p s).2.1

@[simp] theorem finalizeRound_controlPanelMode (p : Bool) (s : MState) :
    (finalizeRound p s).controlPanelMode = s.controlPanelMode :=
  (finalizeRound_frame p s).2.2.1

@[simp] theorem finalizeRound_autoRunActive (p : Bool) (s : MState) :
    (finalizeRound p s).autoRunActive = s.autoRunActive :=
  (finalizeRound_frame p s).2.2.2.1

@[simp] theorem finalizeRound_autoRunFlag (p : Bool) (s : MState) :
    (finalizeRound p s).autoRunFlag = s.autoRunFlag :=
  (finalizeRound_frame p s).2.2.2.2.1

@[simp] theorem finalizeRound_autoRoundInProgress (p : Bool) (s : MState) :
    (finalizeRound p s).autoRoundInProgress = s.autoRoundInProgress :=
  (finalizeRound_frame p s).2.2.2.2.2.1

@[simp] theorem finalizeRound_autoBetsRemaining (p : Bool) (s : MState) :
    (finalizeRound p s).autoBetsRemaining = s.autoBetsRemaining :=
  (finalizeRound_frame p s).2.2.2.2.2.2.1

@[simp] theorem finalizeRound_autoResetScheduled (p : Bool) (s : MState) :
    (finalizeRound p s).autoResetScheduled = s.autoResetScheduled :=
  (finalizeRound_frame p s).2.2.2.2.2.2.2.1

@[simp] theorem finalizeRound_autoStopShouldComplete (p : Bool) (s : MState) :
    (finalizeRound p s).autoStopShouldComplete = s.autoStopShouldComplete :=
  (finalizeRound_frame p s).2.2.2.2.2.2.2.2.1

@[simp] theorem finalizeRound_autoStopFinishing (p : Bool) (s : MState) :
    (finalizeRound p s).autoStopFinishing = s.autoStopFinishing :=
  (finalizeRound_frame p s).2.2.2.2.2.2.2.2.2.1

@[simp] theorem finalizeRound_manualRoundNeedsReset (p : Bool) (s : MState) :
    (finalizeRound p s).manualRoundNeedsReset = s.manualRoundNeedsReset :=
  (finalizeRound_frame p s).2.2.2.2.2.2.2.2.2.2.1

@[simp] theorem finalizeRound_storedAutoSelections (p : Bool) (s : MState) :
    (finalizeRound p s).storedAutoSelections = s.storedAutoSelections :=
  (finalizeRound_frame p s).2.2.2.2.2.2.2.2.2.2.2.1

@[simp] theorem finalizeRound_game (p : Bool) (s : MState) :
    (finalizeRound p s).game = s.game :=
  (finalizeRound_frame p s).2.2.2.2.2.2.2.2.2.2.2.2.1

@[simp] theorem finalizeRound_sent (p : Bool) (s : MState) :
    (finalizeRound p s).sent = s.sent :=
  (finalizeRound_frame p s).2.2.2.2.2.2.2.2.2.2.2.2.2

@[simp] theorem handleGameStateChange_demoMode (st : StateView) (s : MState) :
    (handleGameStateChange st s).demoMode = s.demoMode :=
  (handleGameStateChange_frame st s).1

@[simp] theorem handleGameStateChange_suppressRelay (st : StateView) (s : MState) :
    (handleGameStateChange st s).suppressRelay = s.suppressRelay :=
  (handleGameStateChange_frame st s).2.1

@[simp] theorem handleGameStateChange_controlPanelMode (st : StateView) (s : MState) :
    (handleGameStateChange st s).controlPanelMode = s.controlPanelMode :=
  (handleGameStateChange_frame st s).2.2.1

@[simp] theorem handleGameStateChange_autoRunActive (st : StateView) (s : MState) :
    (handleGameStateChange st s).autoRunActive = s.autoRunActive :=
  (handleGameStateChange_frame st s).2.2.2.1

@[simp] theorem handleGameStateChange_autoRunFlag (st : StateView) (s : MState) :
    (handleGameStateChange st s).autoRunFlag = s.autoRunFlag :=
  (handleGameStateChange_frame st s).2.2.2.2.1

@[simp] theorem handleGameStateChange_autoRoundInProgress (st : StateView) (s : MState) :
    (handleGameStateChange st s).autoRoundInProgress = s.autoRoundInProgress :=
  (handleGameStateChange_frame st s).2.2.2.2.2.1

@[simp] theorem handleGameStateChange_autoBetsRemaining (st : StateView) (s : MState) :
    (handleGameStateChange st s).autoBetsRemaining = s.autoBetsRemaining :=
  (handleGameStateChange_frame st s).2.2.2.2.2.2.1

@[simp] theorem handleGameStateChange_autoResetScheduled (st : StateView) (s : MState) :
    (handleGameStateChange st s).autoResetScheduled = s.autoResetScheduled :=
  (handleGameStateChange_frame st s).2.2.2.2.2.2.2.1

@[simp] theorem handleGameStateChange_autoStopShouldComplete (st : StateView) (s : MState) :
    (handleGameStateChange st s).autoStopShouldComplete = s.autoStopShouldComplete :=
  (handleGameStateChange_frame st s).2.2.2.2.2.2.2.2.1

@[simp] theorem handleGameStateChange_autoStopFinishing (st : StateView) (s : MState) :
    (handleGameStateChange st s).autoStopFinishing = s.autoStopFinishing :=
  (handleGameStateChange_frame st s).2.2.2.2.2.2.2.2.2.1

@[simp] theorem handleGameStateChange_manualRoundNeedsReset (st : StateView) (s : MState) :
    (handleGameStateChange st s).manualRoundNeedsReset = s.manualRoundNeedsReset :=
  (handleGameStateChange_frame st s).2.2.2.2.2.2.2.2.2.2.1

@[simp] theorem handleGameStateChange_storedAutoSelections (st : StateView) (s : MState) :
    (handleGameStateChange st s).storedAutoSelections = s.storedAutoSelections :=
  (handleGameStateChange_frame st s).2.2.2.2.2.2.2.2.2.2.2.1

@[simp] theorem handleGameStateChange_game (st : StateView) (s : MState) :
    (handleGameStateChange st s).game = s.game :=
  (handleGameStateChange_frame st s).2.2.2.2.2.2.2.2.2.2.2.2.1

@[simp] theorem handleGameStateChange_sent (st : StateView) (s : MState) :
    (handleGameStateChange st s).sent = s.sent :=
  (handleGameStateChange_frame st s).2.2.2.2.2.2.2.2.2.2.2.2.2

@[simp] theorem processEmissions_demoMode (s : MState) (es : List Emission) :
    (processEmissions s es).demoMode = s.demoMode :=
  (processEmissions_frame es s).1

@[simp] theorem processEmissions_suppressRelay (s : MState) (es : List Emission) :
    (processEmissions s es).suppressRelay = s.suppressRelay :=
  (processEmissions_frame es s).2.1

@[simp] theorem processEmissions_controlPanelMode (s : MState) (es : List Emission) :
    (processEmissions s es).controlPanelMode = s.controlPanelMode :=
  (processEmissions_frame es s).2.2.1

@[simp] theorem processEmissions_autoRunActive (s : MState) (es : List Emission) :
    (processEmissions s es).autoRunActive = s.autoRunActive :=
  (processEmissions_frame es s).2.2.2.1

@[simp] theorem processEmissions_autoRunFlag (s : MState) (es : List Emission) :
    (processEmissions s es).autoRunFlag = s.autoRunFlag :=
  (processEmissions_frame es s).2.2.2.2.1

@[simp] theorem processEmissions_autoRoundInProgress (s : MState) (es : List Emission) :
    (processEmissions s es).autoRoundInProgress = s.autoRoundInProgress :=
  (processEmissions_frame es s).2.2.2.2.2.1

@[simp] theorem processEmissions_autoBetsRemaining (s : MState) (es : List Emission) :
    (processEmissions s es).autoBetsRemaining = s.autoBetsRemaining :=
  (processEmissions_frame es s).2.2.2.2.2.2.1

@[simp] theorem processEmissions_autoResetScheduled (s : MState) (es : List Emission) :
    (processEmissions s es).autoResetScheduled = s.autoResetScheduled :=
  (processEmissions_frame es s).2.2.2.2.2.2.2.1

@[simp] theorem processEmissions_autoStopShouldComplete (s : MState) (es : List Emission) :
    (processEmissions s es).autoStopShouldComplete = s.autoStopShouldComplete :=
  (processEmissions_frame es s).2.2.2.2.2.2.2.2.1

@[simp] theorem processEmissions_autoStopFinishing (s : MState) (es : List Emission) :
    (processEmissions s es).autoStopFinishing = s.autoStopFinishing :=
  (processEmissions_frame es s).2.2.2.2.2.2.2.2.2.1

@[simp] theorem processEmissions_manualRoundNeedsReset (s : MState) (es : List Emission) :
    (processEmissions s es).manualRoundNeedsReset = s.manualRoundNeedsReset :=
  (processEmissions_frame es s).2.2.2.2.2.2.2.2.2.2.1

@[simp] theorem processEmissions_game (s : MState) (es : List Emission) :
    (processEmissions s es).game = s.game :=
  (processEmissions_frame es s).2.2.2.2.2.2.2.2.2.2.2

@[simp] theorem gameReset_demoMode (p : Bool) (s : MState) :
    (gameReset p s).demoMode = s.demoMode :=
  (gameReset_frame p s).1

@[simp] theorem gameReset_suppressRelay (p : Bool) (s : MState) :
    (gameReset p s).suppressRelay = s.suppressRelay :=
  (gameReset_frame p s).2.1

@[simp] theorem gameReset_controlPanelMode (p : Bool) (s : MState) :
    (gameReset p s).controlPanelMode = s.controlPanelMode :=
  (gameReset_frame p s).2.2.1

@[simp] theorem gameReset_autoRunActive (p : Bool) (s : MState) :
    (gameReset p s).autoRunActive = s.autoRunActive :=
  (gameReset_frame p s).2.2.2.1

@[simp] theorem gameReset_autoRunFlag (p : Bool) (s : MState) :
    (gameReset p s).autoRunFlag = s.autoRunFlag :=
  (gameReset_frame p s).2.2.2.2.1

@[simp] theorem gameReset_autoRoundInProgress (p : Bool) (s : MState) :
    (gameReset p s).autoRoundInProgress = s.autoRoundInProgress :=
  (gameReset_frame p s).2.2.2.2.2.1

@[simp] theorem gameReset_autoBetsRemaining (p : Bool) (s : MState) :
    (gameReset p s).autoBetsRemaining = s.autoBetsRemaining :=
  (gameReset_frame p s).2.2.2.2.2.2.1

@[simp] theorem gameReset_autoResetScheduled (p : Bool) (s : MState) :
    (gameReset p s).autoResetScheduled = s.autoResetScheduled :=
  (gameReset_frame p s).2.2.2.2.2.2.2.1

@[simp] theorem gameReset_autoStopShouldComplete (p : Bool) (s : MState) :
    (gameReset p s).autoStopShouldComplete = s.autoStopShouldComplete :=
  (gameReset_frame p s).2.2.2.2.2.2.2.2.1

@[simp] theorem gameReset_autoStopFinishing (p : Bool) (s : MState) :
    (gameReset p s).autoStopFinishing = s.autoStopFinishing :=
  (gameReset_frame p s).2.2.2.2.2.2.2.2.2.1

@[simp] theorem gameReset_manualRoundNeedsReset (p : Bool) (s : MState) :
    (gameReset p s).manualRoundNeedsReset = s.manualRoundNeedsReset :=
  (gameReset_frame p s).2.2.2.2.2.2.2.2.2.2.1

@[simp] theorem gameReset_game (p : Bool) (s : MState) :
    (gameReset p s).game = (reset s.game p).1 :=
  (gameReset_frame p s).2.2.2.2.2.2.2.2.2.2.2

@[simp] theorem gameClearAutoSelections_demoMode (s : MState) :
    (gameClearAutoSelections s).demoMode = s.demoMode :=
  (gameClearAutoSelections_frame s).1

@[simp] theorem gameClearAutoSelections_suppressRelay (s : MState) :
    (gameClearAutoSelections s).suppressRelay = s.suppressRelay :=
  (gameClearAutoSelections_frame s).2.1

@[simp] theorem gameClearAutoSelections_controlPanelMode (s : MState) :
    (gameClearAutoSelections s).controlPanelMode = s.controlPanelMode :=
  (gameClearAutoSelections_frame s).2.2.1

@[simp] theorem gameClearAutoSelections_autoRunActive (s : MState) :
    (gameClearAutoSelections s).autoRunActive = s.autoRunActive :=
  (gameClearAutoSelections_frame s).2.2.2.1

@[simp] theorem gameClearAutoSelections_autoRunFlag (s : MState) :
    (gameClearAutoSelections s).autoRunFlag = s.autoRunFlag :=
  (gameClearAutoSelections_frame s).2.2.2.2.1

@[simp] theorem gameClearAutoSelections_autoRoundInProgress (s : MState) :
    (gameClearAutoSelections s).autoRoundInProgress = s.autoRoundInProgress :=
  (gameClearAutoSelections_frame s).2.2.2.2.2.1

@[simp] theorem gameClearAutoSelections_autoBetsRemaining (s : MState) :
    (gameClearAutoSelections s).autoBetsRemaining = s.autoBetsRemaining :=
  (gameClearAutoSelections_frame s).2.2.2.2.2.2.1

@[simp] theorem gameClearAutoSelections_autoResetScheduled (s : MState) :
    (gameClearAutoSelections s).autoResetScheduled = s.autoResetScheduled :=
  (gameClearAutoSelections_frame s).2.2.2.2.2.2.2.1

@[simp] theorem gameClearAutoSelections_autoStopShouldComplete (s : MState) :
    (gameClearAutoSelections s).autoStopShouldComplete = s.autoStopShouldComplete :=
  (gameClearAutoSelections_frame s).2.2.2.2.2.2.2.2.1

@[simp] theorem gameClearAutoSelections_autoStopFinishing (s : MState) :
    (gameClearAutoSelections s).autoStopFinishing = s.autoStopFinishing :=
  (gameClearAutoSelections_frame s).2.2.2.2.2.2.2.2.2.1

@[simp] theorem gameClearAutoSelections_manualRoundNeedsReset (s : MState) :
    (gameClearAutoSelections s).manualRoundNeedsReset = s.manualRoundNeedsReset :=
  (gameClearAutoSelections_frame s).2.2.2.2.2.2.2.2.2.2.1

@[simp] theorem gameClearAutoSelections_game (s : MState) :
    (gameClearAutoSelections s).game = (clearAutoSelections s.game true).1 :=
  (gameClearAutoSelections_frame s).2.2.2.2.2.2.2.2.2.2.2

@[simp] theorem gameApplyAutoSelections_demoMode (coords : List (Nat × Nat)) (s : MState) :
    (gameApplyAutoSelections coords s).demoMode = s.demoMode :=
  (gameApplyAutoSelections_frame coords s).1

@[simp] theorem gameApplyAutoSelections_suppressRelay (coords : List (Nat × Nat)) (s : MState) :
    (gameApplyAutoSelections coords s).suppressRelay = s.suppressRelay :=
  (gameApplyAutoSelections_frame coords s).2.1

@[simp] theorem gameApplyAutoSelections_controlPanelMode (coords : List (Nat × Nat)) (s : MState) :
    (gameApplyAutoSelections coords s).controlPanelMode = s.controlPanelMode :=
  (gameApplyAutoSelections_frame coords s).2.2.1

@[simp] theorem gameApplyAutoSelections_autoRunActive (coords : List (Nat × Nat)) (s : MState) :
    (gameApplyAutoSelections coords s).autoRunActive = s.autoRunActive :=
  (gameApplyAutoSelections_frame coords s).2.2.2.1

@[simp] theorem gameApplyAutoSelections_autoRunFlag (coords : List (Nat × Nat)) (s : MState) :
    (gameApplyAutoSelections coords s).autoRunFlag = s.autoRunFlag :=
  (gameApplyAutoSelections_frame coords s).2.2.2.2.1

@[simp] theorem gameApplyAutoSelections_autoRoundInProgress (coords : List (Nat × Nat)) (s : MState) :
    (gameApplyAutoSelections coords s).autoRoundInProgress = s.autoRoundInProgress :=
  (gameApplyAutoSelections_frame coords s).2.2.2.2.2.1

@[simp] theorem gameApplyAutoSelections_autoBetsRemaining (coords : List (Nat × Nat)) (s : MState) :
    (gameApplyAutoSelections coords s).autoBetsRemaining = s.autoBetsRemaining :=
  (gameApplyAutoSelections_frame coords s).2.2.2.2.2.2.1

@[simp] theorem gameApplyAutoSelections_autoResetScheduled (coords : List (Nat × Nat)) (s : MState) :
    (gameApplyAutoSelections coords s).autoResetScheduled = s.autoResetScheduled :=
  (gameApplyAutoSelections_frame coords s).2.2.2.2.2.2.2.1

@[simp] theorem gameApplyAutoSelections_autoStopShouldComplete (coords : List (Nat × Nat)) (s : MState) :
    (gameApplyAutoSelections coords s).autoStopShouldComplete = s.autoStopShouldComplete :=
  (gameApplyAutoSelections_frame coords s).2.2.2.2.2.2.2.2.1

@[simp] theorem gameApplyAutoSelections_autoStopFinishing (coords : List (Nat × Nat)) (s : MState) :
    (gameApplyAutoSelections coords s).autoStopFinishing = s.autoStopFinishing :=
  (gameApplyAutoSelections_frame coords s).2.2.2.2.2.2.2.2.2.1

@[simp] theorem gameApplyAutoSelections_manualRoundNeedsReset (coords : List (Nat × Nat)) (s : MState) :
    (gameApplyAutoSelections coords s).manualRoundNeedsReset = s.manualRoundNeedsReset :=
  (gameApplyAutoSelections_frame coords s).2.2.2.2.2.2.2.2.2.2.1

@[simp] theorem gameApplyAutoSelections_game (coords : List (Nat × Nat)) (s : MState) :
    (gameApplyAutoSelections coords s).game = (applyAutoSelectionsFromCoordinates s.game coords true).1 :=
  (gameApplyAutoSelections_frame coords s).2.2.2.2.2.2.2.2.2.2.2

@[simp] theorem gameSetMines_demoMode (n : Int) (s : MState) :
    (gameSetMines n s).demoMode = s.demoMode :=
  (gameSetMines_frame n s).1

@[simp] theorem gameSetMines_suppressRelay (n : Int) (s : MState) :
    (gameSetMines n s).suppressRelay = s.suppressRelay :=
  (gameSetMines_frame n s).2.1

@[simp] theorem gameSetMines_controlPanelMode (n : Int) (s : MState) :
    (gameSetMines n s).controlPanelMode = s.controlPanelMode :=
  (gameSetMines_frame n s).2.2.1

@[simp] theorem gameSetMines_autoRunActive (n : Int) (s : MState) :
    (gameSetMines n s).autoRunActive = s.autoRunActive :=
  (gameSetMines_frame n s).2.2.2.1

@[simp] theorem gameSetMines_autoRunFlag (n : Int) (s : MState) :
    (gameSetMines n s).autoRunFlag = s.autoRunFlag :=
  (gameSetMines_frame n s).2.2.2.2.1

@[simp] theorem gameSetMines_autoRoundInProgress (n : Int) (s : MState) :
    (gameSetMines n s).autoRoundInProgress = s.autoRoundInProgress :=
  (gameSetMines_frame n s).2.2.2.2.2.1

@[simp] theorem gameSetMines_autoBetsRemaining (n : Int) (s : MState) :
    (gameSetMines n s).autoBetsRemaining = s.autoBetsRemaining :=
  (gameSetMines_frame n s).2.2.2.2.2.2.1

@[simp] theorem gameSetMines_autoResetScheduled (n : Int) (s : MState) :
    (gameSetMines n s).autoResetScheduled = s.autoResetScheduled :=
  (gameSetMines_frame n s).2.2.2.2.2.2.2.1

@[simp] theorem gameSetMines_autoStopShouldComplete (n : Int) (s : MState) :
    (gameSetMines n s).autoStopShouldComplete = s.autoStopShouldComplete :=
  (gameSetMines_frame n s).2.2.2.2.2.2.2.2.1

@[simp] theorem gameSetMines_autoStopFinishing (n : Int) (s : MState) :
    (gameSetMines n s).autoStopFinishing = s.autoStopFinishing :=
  (gameSetMines_frame n s).2.2.2.2.2.2.2.2.2.1

@[simp] theorem gameSetMines_manualRoundNeedsReset (n : Int) (s : MState) :
    (gameSetMines n s).manualRoundNeedsReset = s.manualRoundNeedsReset :=
  (gameSetMines_frame n s).2.2.2.2.2.2.2.2.2.2.1

@[simp] theorem gameSetMines_game (n : Int) (s : MState) :
    (gameSetMines n s).game = (setMines s.game n).1 :=
  (gameSetMines_frame n s).2.2.2.2.2.2.2.2.2.2.2

theorem setAutoRunUIState_frame (b : Bool) (s : MState) :
    (setAutoRunUIState b s).demoMode = s.demoMode ∧
    (setAutoRunUIState b s).suppressRelay = s.suppressRelay ∧
    (setAutoRunUIState b s).controlPanelMode = s.controlPanelMode ∧
    (setAutoRunUIState b s).roundActive = s.roundActive ∧
    (setAutoRunUIState b s).cashoutAvailable = s.cashoutAvailable ∧
    (setAutoRunUIState b s).selectionPending = s.selectionPending ∧
    (setAutoRunUIState b s).selectionDelay = s.selectionDelay ∧
    (setAutoRunUIState b s).autoRunActive = s.autoRunActive ∧
    (setAutoRunUIState b s).autoRunFlag = s.autoRunFlag ∧
    (setAutoRunUIState b s).autoRoundInProgress = s.autoRoundInProgress ∧
    (setAutoRunUIState b s).autoBetsRemaining = s.autoBetsRemaining ∧
    (setAutoRunUIState b s).autoResetScheduled = s.autoResetScheduled ∧
    (setAutoRunUIState b s).autoStopShouldComplete = s.autoStopShouldComplete ∧
    (setAutoRunUIState b s).manualRoundNeedsReset = s.manualRoundNeedsReset ∧
    (setAutoRunUIState b s).game = s.game := by
  unfold setAutoRunUIState
  by_cases hb : b <;> simp [hb]

@[simp] theorem gameClearAutoSelections_roundActive (s : MState) :
    (gameClearAutoSelections s).roundActive = s.roundActive := by
  unfold gameClearAutoSelections clearAutoSelections notifyAutoSelectionChange
  by_cases h : s.game.autoSelectionOrder.isEmpty <;>
    simp [h, processEmissions]

@[simp] theorem gameClearAutoSelections_cashoutAvailable (s : MState) :
    (gameClearAutoSelections s).cashoutAvailable = s.cashoutAvailable := by
  unfold gameClearAutoSelections clearAutoSelections notifyAutoSelectionChange
  by_cases h : s.game.autoSelectionOrder.isEmpty <;>
    simp [h, processEmissions]

theorem prepareForNewRoundState_frame (p : Bool) (s : MState) :
    (prepareForNewRoundState p s).demoMode = s.demoMode ∧
    (prepareForNewRoundState p s).suppressRelay = s.suppressRelay ∧
    (prepareForNewRoundState p s).controlPanelMode = s.controlPanelMode ∧
    (prepareForNewRoundState p s).roundActive = true ∧
    (prepareForNewRoundState p s).cashoutAvailable = false ∧
    (prepareForNewRoundState p s).autoRunActive = s.autoRunActive ∧
    (prepareForNewRoundState p s).autoRunFlag = s.autoRunFlag ∧
    (prepareForNewRoundState p s).autoRoundInProgress = s.autoRoundInProgress ∧
    (prepareForNewRoundState p s).autoBetsRemaining = s.autoBetsRemaining ∧
    (prepareForNewRoundState p s).autoResetScheduled = s.autoResetScheduled ∧
    (prepareForNewRoundState p s).autoStopShouldComplete = s.autoStopShouldComplete ∧
    (prepareForNewRoundState p s).autoStopFinishing = s.autoStopFinishing := by
  unfold prepareForNewRoundState
  by_cases hp : p <;>
    by_cases hm : s.controlPanelMode ≠ CPMode.auto <;>
      simp [hp, hm, clearSelectionDelay, setControlPanelBetMode]

/-- A concrete host state mirroring the shipped demo configuration
(GRID = 5, three mines, auto panel). -/
def baseMState : MState where
  demoMode := true
  suppressRelay := false
  betButtonMode := BetMode.bet
  roundActive := false
  cashoutAvailable := false
  selectionPending := false
  selectionDelay := none
  minesSelectionLocked := false
  controlPanelMode := CPMode.auto
  autoSelectionCount := 0
  storedAutoSelections := []
  autoRunActive := false
  autoRunFlag := false
  autoRoundInProgress := false
  autoBetsRemaining := none
  autoResetScheduled := false
  autoStopShouldComplete := false
  autoStopFinishing := false
  manualRoundNeedsReset := false
  lastKnownGameState := none
  optsMines := 3
  cpNumberOfBets := none
  cpMinesValue := 3
  cpMaxMines := 24
  game := createGameModel 5 3
  sent := []

def activeMState : MState :=
  { baseMState with roundActive := true, cashoutAvailable := true }

def stW : StateView where
  grid := 5
  mines := 3
  revealedSafe := 1
  totalSafe := 22
  gameOver := false
  waitingForChoice := false
  selectedTile := none

/-- C3: while the round is active, `applyRoundInteractiveState` recomputes
cashout eligibility as `revealedSafe > 0` and keeps the round active; with
no active round it is a no-op; `finalizeRound` always leaves
`cashoutAvailable = false` and `roundActive = false`; and `handleCashout`
is a no-op unless both `roundActive` and `cashoutAvailable` hold. -/
theorem cashout_eligibility (st : StateView) (p : Bool) (s : MState) :
    (s.roundActive = true →
      (applyRoundInteractiveState st s).cashoutAvailable
          = decide (0 < st.revealedSafe) ∧
      (applyRoundInteractiveState st s).roundActive = true) ∧
    (s.roundActive = false → applyRoundInteractiveState st s = s) ∧
    (finalizeRound p s).cashoutAvailable = false ∧
    (finalizeRound p s).roundActive = false ∧
    (s.roundActive = false ∨ s.cashoutAvailable = false →
      handleCashout s = s) := by
  refine ⟨?_, ?_, ?_, ?_, ?_⟩
  · intro h
    unfold applyRoundInteractiveState setControlPanelBetMode
    simp [h]
  · intro h
    unfold applyRoundInteractiveState
    simp [h]
  · unfold finalizeRound clearSelectionDelay setControlPanelBetMode
    by_cases hp : p <;> simp [hp]
  · unfold finalizeRound clearSelectionDelay setControlPanelBetMode
    by_cases hp : p <;> simp [hp]
  · intro h
    unfold handleCashout
    rcases h with h | h <;> simp [h]

theorem cashout_eligibility_witness :
    (applyRoundInteractiveState stW activeMState).cashoutAvailable = true ∧
    (applyRoundInteractiveState stW activeMState).roundActive = true ∧
    applyRoundInteractiveState stW baseMState = baseMState ∧
    (finalizeRound true activeMState).cashoutAvailable = false ∧
    (finalizeRound true activeMState).roundActive = false ∧
    handleCashout baseMState = baseMState :=
  ⟨((cashout_eligibility stW true activeMState).1 rfl).1,
   ((cashout_eligibility stW true activeMState).1 rfl).2,
   (cashout_eligibility stW true baseMState).2.1 rfl,
   (cashout_eligibility stW true activeMState).2.2.1,
   (cashout_eligibility stW true activeMState).2.2.2.1,
   (cashout_eligibility stW true baseMState).2.2.2.2 (Or.inl rfl)⟩

@[simp] theorem setAutoRunUIState_demoMode (b : Bool) (s : MState) :
    (setAutoRunUIState b s).demoMode = s.demoMode :=
  (setAutoRunUIState_frame b s).1

@[simp] theorem setAutoRunUIState_suppressRelay (b : Bool) (s : MState) :
    (setAutoRunUIState b s).suppressRelay = s.suppressRelay :=
  (setAutoRunUIState_frame b s).2.1

@[simp] theorem setAutoRunUIState_controlPanelMode (b : Bool) (s : MState) :
    (setAutoRunUIState b s).controlPanelMode = s.controlPanelMode :=
  (setAutoRunUIState_frame b s).2.2.1

@[simp] theorem setAutoRunUIState_roundActive (b : Bool) (s : MState) :
    (setAutoRunUIState b s).roundActive = s.roundActive :=
  (setAutoRunUIState_frame b s).2.2.2.1

@[simp] theorem setAutoRunUIState_cashoutAvailable (b : Bool) (s : MState) :
    (setAutoRunUIState b s).cashoutAvailable = s.cashoutAvailable :=
  (setAutoRunUIState_frame b s).2.2.2.2.1

@[simp] theorem setAutoRunUIState_selectionPending (b : Bool) (s : MState) :
    (setAutoRunUIState b s).selectionPending = s.selectionPending :=
  (setAutoRunUIState_frame b s).2.2.2.2.2.1

@[simp] theorem setAutoRunUIState_selectionDelay (b : Bool) (s : MState) :
    (setAutoRunUIState b s).selectionDelay = s.selectionDelay :=
  (setAutoRunUIState_frame b s).2.2.2.2.2.2.1

@[simp] theorem setAutoRunUIState_autoRunActive (b : Bool) (s : MState) :
    (setAutoRunUIState b s).autoRunActive = s.autoRunActive :=
  (setAutoRunUIState_frame b s).2.2.2.2.2.2.2.1

@[simp] theorem setAutoRunUIState_autoRunFlag (b : Bool) (s : MState) :
    (setAutoRunUIState b s).autoRunFlag = s.autoRunFlag :=
  (setAutoRunUIState_frame b s).2.2.2.2.2.2.2.2.1

@[simp] theorem setAutoRunUIState_autoRoundInProgress (b : Bool) (s : MState) :
    (setAutoRunUIState b s).autoRoundInProgress = s.autoRoundInProgress :=
  (setAutoRunUIState_frame b s).2.2.2.2.2.2.2.2.2.1

@[simp] theorem setAutoRunUIState_autoBetsRemaining (b : Bool) (s : MState) :
    (setAutoRunUIState b s).autoBetsRemaining = s.autoBetsRemaining :=
  (setAutoRunUIState_frame b s).2.2.2.2.2.2.2.2.2.2.1

@[simp] theorem setAutoRunUIState_autoResetScheduled (b : Bool) (s : MState) :
    (setAutoRunUIState b s).autoResetScheduled = s.autoResetScheduled :=
  (setAutoRunUIState_frame b s).2.2.2.2.2.2.2.2.2.2.2.1

@[simp] theorem setAutoRunUIState_autoStopShouldComplete (b : Bool) (s : MState) :
    (setAutoRunUIState b s).autoStopShouldComplete = s.autoStopShouldComplete :=
  (setAutoRunUIState_frame b s).2.2.2.2.2.2.2.2.2.2.2.2.1

@[simp] theorem setAutoRunUIState_manualRoundNeedsReset (b : Bool) (s : MState) :
    (setAutoRunUIState b s).manualRoundNeedsReset = s.manualRoundNeedsReset :=
  (setAutoRunUIState_frame b s).2.2.2.2.2.2.2.2.2.2.2.2.2.1

@[simp] theorem setAutoRunUIState_game (b : Bool) (s : MState) :
    (setAutoRunUIState b s).game = s.game :=
  (setAutoRunUIState_frame b s).2.2.2.2.2.2.2.2.2.2.2.2.2.2

@[simp] theorem prepareForNewRoundState_demoMode (p : Bool) (s : MState) :
    (prepareForNewRoundState p s).demoMode = s.demoMode :=
  (prepareForNewRoundState_frame p s).1

@[simp] theorem prepareForNewRoundState_suppressRelay (p : Bool) (s : MState) :
    (prepareForNewRoundState p s).suppressRelay = s.suppressRelay :=
  (prepareForNewRoundState_frame p s).2.1

@[simp] theorem prepareForNewRoundState_controlPanelMode (p : Bool) (s : MState) :
    (prepareForNewRoundState p s).controlPanelMode = s.controlPanelMode :=
  (prepareForNewRoundState_frame p s).2.2.1

@[simp] theorem prepareForNewRoundState_roundActive (p : Bool) (s : MState) :
    (prepareForNewRoundState p s).roundActive = true :=
  (prepareForNewRoundState_frame p s).2.2.2.1

@[simp] theorem prepareForNewRoundState_cashoutAvailable (p : Bool) (s : MState) :
    (prepareForNewRoundState p s).cashoutAvailable = false :=
  (prepareForNewRoundState_frame p s).2.2.2.2.1

@[simp] theorem prepareForNewRoundState_autoRunActive (p : Bool) (s : MState) :
    (prepareForNewRoundState p s).autoRunActive = s.autoRunActive :=
  (prepareForNewRoundState_frame p s).2.2.2.2.2.1

@[simp] theorem prepareForNewRoundState_autoRunFlag (p : Bool) (s : MState) :
    (prepareForNewRoundState p s).autoRunFlag = s.autoRunFlag :=
  (prepareForNewRoundState_frame p s).2.2.2.2.2.2.1

@[simp] theorem prepareForNewRoundState_autoRoundInProgress (p : Bool) (s : MState) :
    (prepareForNewRoundState p s).autoRoundInProgress = s.autoRoundInProgress :=
  (prepareForNewRoundState_frame p s).2.2.2.2.2.2.2.1

@[simp] theorem prepareForNewRoundState_autoBetsRemaining (p : Bool) (s : MState) :
    (prepareForNewRoundState p s).autoBetsRemaining = s.autoBetsRemaining :=
  (prepareForNewRoundState_frame p s).2.2.2.2.2.2.2.2.1

@[simp] theorem prepareForNewRoundState_autoResetScheduled (p : Bool) (s : MState) :
    (prepareForNewRoundState p s).autoResetScheduled = s.autoResetScheduled :=
  (prepareForNewRoundState_frame p s).2.2.2.2.2.2.2.2.2.1

@[simp] theorem prepareForNewRoundState_autoStopShouldComplete (p : Bool) (s : MState) :
    (prepareForNewRoundState p s).autoStopShouldComplete = s.autoStopShouldComplete :=
  (prepareForNewRoundState_frame p s).2.2.2.2.2.2.2.2.2.2.1

@[simp] theorem prepareForNewRoundState_autoStopFinishing (p : Bool) (s : MState) :
    (prepareForNewRoundState p s).autoStopFinishing = s.autoStopFinishing :=
  (prepareForNewRoundState_frame p s).2.2.2.2.2.2.2.2.2.2.2

@[simp] theorem prepareForNewRoundState_true_stored (s : MState) :
    (prepareForNewRoundState true s).storedAutoSelections
      = s.storedAutoSelections := by
  unfold prepareForNewRoundState clearSelectionDelay setControlPanelBetMode
  by_cases hm : s.controlPanelMode ≠ CPMode.auto <;> simp [hm]

/-- How `handleAutoSelectionChange` writes `storedAutoSelections`: only in
auto panel mode, and only when the new count is positive or no auto run or
auto round is in flight. -/
theorem handleAutoSelectionChange_stored (n : Nat) (s : MState) :
    (handleAutoSelectionChange n s).storedAutoSelections =
      if s.controlPanelMode = CPMode.auto ∧
          (0 < n ∨ (s.autoRunActive = false ∧ s.autoRoundInProgress = false))
      then s.game.autoSelectionOrder
      else s.storedAutoSelections := by
  unfold handleAutoSelectionChange getAutoSelectionCoordinates sendRelayMessage
  by_cases hm : s.controlPanelMode = CPMode.auto <;>
    by_cases hn : 0 < n <;>
      simp [hm, hn] <;> split_ifs <;> simp_all

/-- Clearing the auto selections only ever reports a count of zero. -/
theorem clearAutoSelections_snd_mem (g : GameState) (b : Bool) (n : Nat)
    (h : Emission.autoSelectionChange n ∈ (clearAutoSelections g b).2) :
    n = 0 := by
  unfold clearAutoSelections notifyAutoSelectionChange at h
  by_cases he : g.autoSelectionOrder.isEmpty <;>
    cases b <;> simp [he] at h <;> simp_all [List.isEmpty_iff]

theorem clearSelection_snd_mem (g : GameState) (b : Bool) (n : Nat)
    (h : Emission.autoSelectionChange n ∈ (clearSelection g b).2) :
    n = 0 := by
  unfold clearSelection at h
  exact clearAutoSelections_snd_mem _ _ _ h

theorem buildBoard_snd (g : GameState) (e : Bool) :
    (buildBoard g e).2 = (clearSelection g e).2 := by
  unfold buildBoard
  rcases hcs : clearSelection g e with ⟨g1, e1⟩
  rfl

/-- Any positive selection count reported while applying stored coordinates
refers to the resulting board, whose selection order is then nonempty. -/
theorem applyAuto_good (g : GameState) (coords : List (Nat × Nat)) (n : Nat)
    (hmem : Emission.autoSelectionChange n
      ∈ (applyAutoSelectionsFromCoordinates g coords true).2)
    (hn : 0 < n) :
    (applyAutoSelectionsFromCoordinates g coords true).1.autoSelectionOrder
      ≠ [] := by
  unfold applyAutoSelectionsFromCoordinates at hmem ⊢
  by_cases hc : coords.isEmpty
  · rw [if_pos hc] at hmem
    have := clearAutoSelections_snd_mem g true n hmem
    omega
  · rw [if_neg hc] at hmem ⊢
    have hmem2 : Emission.autoSelectionChange n ∈
        [Emission.autoSelectionChange
          (applyAutoSelectionsGo (clearAutoSelections g false).1
            coords).autoSelectionOrder.length] := hmem
    have hlen : n = (applyAutoSelectionsGo (clearAutoSelections g false).1
        coords).autoSelectionOrder.length := by
      simpa using hmem2
    show (applyAutoSelectionsGo (clearAutoSelections g false).1
        coords).autoSelectionOrder ≠ []
    intro hnil
    rw [hnil] at hlen
    simp at hlen
    omega


/-- The board `reset` starts from: flags cleared before rebuilding. -/
def resetBase (g : GameState) : GameState :=
  { g with
    gameOver := false
    bombPositions := []
    shouldPlayStartSound := true }

theorem reset_eq_false (g : GameState) :
    reset g false =
      ((buildBoard (resetBase g) true).1,
       (buildBoard (resetBase g) true).2
         ++ [Emission.stateChange (getState (buildBoard (resetBase g) true).1)]) :=
  rfl

theorem reset_eq_true (g : GameState) :
    reset g true =
      (if g.autoSelectionOrder.isEmpty then
        ((buildBoard (resetBase g) false).1,
         (buildBoard (resetBase g) false).2
           ++ [Emission.stateChange
                (getState (buildBoard (resetBase g) false).1)])
      else
        ((applyAutoSelectionsFromCoordinates
            (buildBoard (resetBase g) false).1 g.autoSelectionOrder true).1,
         (buildBoard (resetBase g) false).2
           ++ (applyAutoSelectionsFromCoordinates
                (buildBoard (resetBase g) false).1 g.autoSelectionOrder true).2
           ++ [Emission.stateChange
                (getState (applyAutoSelectionsFromCoordinates
                  (buildBoard (resetBase g) false).1
                  g.autoSelectionOrder true).1)])) :=
  rfl

/-- Any positive selection count emitted by `reset` refers to the board it
returns, whose selection order is then nonempty. -/
theorem reset_good (g : GameState) (p : Bool) (n : Nat)
    (hmem : Emission.autoSelectionChange n ∈ (reset g p).2) (hn : 0 < n) :
    (reset g p).1.autoSelectionOrder ≠ [] := by
  cases p with
  | false =>
    rw [reset_eq_false] at hmem
    simp only [List.mem_append, List.mem_singleton] at hmem
    rcases hmem with hmem | hmem
    · rw [buildBoard_snd] at hmem
      have := clearSelection_snd_mem _ _ _ hmem
      omega
    · simp at hmem
  | true =>
    rw [reset_eq_true] at hmem ⊢
    by_cases hc : g.autoSelectionOrder.isEmpty
    · rw [if_pos hc] at hmem
      simp only [List.mem_append, List.mem_singleton] at hmem
      rcases hmem with hmem | hmem
      · rw [buildBoard_snd] at hmem
        have := clearSelection_snd_mem _ _ _ hmem
        omega
      · simp at hmem
    · rw [if_neg hc] at hmem ⊢
      simp only [List.mem_append, List.mem_singleton, List.append_assoc]
        at hmem
      rcases hmem with hmem | hmem | hmem
      · rw [buildBoard_snd] at hmem
        have := clearSelection_snd_mem _ _ _ hmem
        omega
      · exact applyAuto_good _ _ _ hmem hn
      · simp at hmem

/-- While an auto run is active, processing game callbacks can only
overwrite the stored selections with the (nonempty, by the emission
discipline) current selection order, so they stay nonempty. -/
theorem processEmissions_stored_ne (es : List Emission) (s : MState)
    (hrun : s.autoRunActive = true)
    (hs : s.storedAutoSelections ≠ [])
    (hgood : ∀ n, Emission.autoSelectionChange n ∈ es → 0 < n →
      s.game.autoSelectionOrder ≠ []) :
    (processEmissions s es).storedAutoSelections ≠ [] := by
  induction es generalizing s with
  | nil => simpa [processEmissions] using hs
  | cons e rest ih =>
    cases e with
    | autoSelectionChange n =>
      have hrw : processEmissions s (Emission.autoSelectionChange n :: rest)
          = processEmissions (handleAutoSelectionChange n s) rest := rfl
      rw [hrw]
      apply ih
      · simp [hrun]
      · rw [handleAutoSelectionChange_stored]
        split_ifs with hc
        · rcases hc.2 with hpos | hidle
          · exact hgood n (by simp) hpos
          · rw [hrun] at hidle
            exact absurd hidle.1 (by simp)
        · exact hs
      · intro m hmem hm
        simp only [handleAutoSelectionChange_game]
        exact hgood m (List.mem_cons_of_mem _ hmem) hm
    | stateChange v =>
      have hrw : processEmissions s (Emission.stateChange v :: rest)
          = processEmissions (handleGameStateChange v s) rest := rfl
      rw [hrw]
      apply ih
      · simp [hrun]
      · simpa using hs
      · intro m hmem hm
        simp only [handleGameStateChange_game]
        exact hgood m (List.mem_cons_of_mem _ hmem) hm

theorem gameReset_stored_ne (p : Bool) (s : MState)
    (hrun : s.autoRunActive = true)
    (hs : s.storedAutoSelections ≠ []) :
    (gameReset p s).storedAutoSelections ≠ [] := by
  unfold gameReset
  apply processEmissions_stored_ne
  · exact hrun
  · exact hs
  · intro n hmem hn
    exact reset_good s.game p n hmem hn

theorem gameApplyAutoSelections_stored_ne (c : List (Nat × Nat)) (s : MState)
    (hrun : s.autoRunActive = true)
    (hs : s.storedAutoSelections ≠ []) :
    (gameApplyAutoSelections c s).storedAutoSelections ≠ [] := by
  unfold gameApplyAutoSelections
  apply processEmissions_stored_ne
  · exact hrun
  · exact hs
  · intro n hmem hn
    exact applyAuto_good s.game c n hmem hn

/-- Stopping the auto-bet process always leaves the session inactive. -/
theorem stopAutoBetProcess_autoRunActive (c : Bool) (s : MState) :
    (stopAutoBetProcess c s).autoRunActive = false := by
  unfold stopAutoBetProcess
  split_ifs <;> simp

/-- In demo mode, a scheduled auto round with nonempty stored selections
keeps the session running (the round is queued on the selection timer). -/
theorem executeAutoBetRound_run (roll : Nat → Bool) (s : MState)
    (hrun : s.autoRunActive = true) (hdemo : s.demoMode = true)
    (hs : s.storedAutoSelections ≠ []) :
    (executeAutoBetRound roll true s).autoRunActive = true := by
  have hie : s.storedAutoSelections.isEmpty = false := by
    simpa [List.isEmpty_iff] using hs
  unfold executeAutoBetRound startAutoRoundIfNeeded
  by_cases hra : s.roundActive = false
  · have h1run : (prepareForNewRoundState true
        (gameReset true s)).autoRunActive = true := by simp [hrun]
    have h2s : (gameApplyAutoSelections
        (gameReset true s).storedAutoSelections
        (prepareForNewRoundState true
          (gameReset true s))).storedAutoSelections ≠ [] := by
      apply gameApplyAutoSelections_stored_ne _ _ h1run
      rw [prepareForNewRoundState_true_stored]
      exact gameReset_stored_ne true s hrun hs
    simp [hrun, hie, hra, hdemo, h2s, clearSelectionDelay]
  · have h2s :
        (gameApplyAutoSelections s.storedAutoSelections
          s).storedAutoSelections ≠ [] :=
      gameApplyAutoSelections_stored_ne _ _ hrun hs
    simp [hrun, hie, hra, hdemo, h2s, clearSelectionDelay]

/-- `handleAutoRoundFinished` on a running demo session with `r ≥ 1` bets
left: decrement, and when the counter hits zero flag the stop sequence. -/
theorem handleAutoRoundFinished_char (s : MState) (r : Nat)
    (hrun : s.autoRunActive = true)
    (hstop : s.autoStopShouldComplete = false)
    (hdemo : s.demoMode = true)
    (hbets : s.autoBetsRemaining = some r)
    (hr : 1 ≤ r) :
    handleAutoRoundFinished s =
      if r = 1 then
        { s with
          autoRoundInProgress := false
          autoBetsRemaining := some 0
          autoRunFlag := false
          autoStopShouldComplete := true
          autoStopFinishing := true
          autoResetScheduled := true }
      else
        { s with
          autoRoundInProgress := false
          autoBetsRemaining := some (r - 1)
          autoResetScheduled := true } := by
  unfold handleAutoRoundFinished scheduleNextAutoBetRound setAutoRunUIState
    sendRelayMessage
  by_cases hr1 : r = 1
  · subst hr1
    simp [hbets, hrun, hstop, hdemo]
  · have hne : ¬(r - 1 = 0) := by omega
    simp [hbets, hrun, hstop, hdemo, hne, hr1]

/-- C2: while an auto-play session is running in demo mode with a finite
counter `some r`, `r ≥ 1`, a completed cycle (`handleAutoRoundFinished`)
decrements `autoBetsRemaining` by exactly one (so it strictly decreases,
and in particular is non-increasing), the session is still running when the
cycle handler returns, and the follow-up reset timer stops the session
(`autoRunActive = false`) exactly when the counter has reached zero. -/
theorem auto_bets_decrement (roll : Nat → Bool) (s : MState) (r : Nat)
    (hrun : s.autoRunActive = true)
    (hflag : s.autoRunFlag = true)
    (hstop : s.autoStopShouldComplete = false)
    (hbets : s.autoBetsRemaining = some r)
    (hr : 1 ≤ r)
    (hdemo : s.demoMode = true)
    (hs : s.storedAutoSelections ≠ []) :
    (handleAutoRoundFinished s).autoBetsRemaining = some (r - 1) ∧
    r - 1 < r ∧
    (handleAutoRoundFinished s).autoRunActive = true ∧
    ((autoResetTimerFire roll (handleAutoRoundFinished s)).autoRunActive
        = false ↔ r - 1 = 0) := by
  rw [handleAutoRoundFinished_char s r hrun hstop hdemo hbets hr]
  by_cases hr1 : r = 1
  · subst hr1
    rw [if_pos rfl]
    refine ⟨rfl, by omega, hrun, ?_⟩
    constructor
    · intro _; rfl
    · intro _
      unfold autoResetTimerFire
      simp [hrun, hdemo, stopAutoBetProcess_autoRunActive]
  · rw [if_neg hr1]
    have hne : ¬(r - 1 = 0) := by omega
    refine ⟨rfl, by omega, hrun, ?_⟩
    have hexec : (executeAutoBetRound roll true { s with
        autoRunActive := true
        autoRunFlag := true
        autoRoundInProgress := false
        autoBetsRemaining := some (r - 1)
        autoResetScheduled := false
        autoStopShouldComplete := false
        autoStopFinishing := false }).autoRunActive = true := by
      apply executeAutoBetRound_run
      · rfl
      · exact hdemo
      · exact hs
    unfold autoResetTimerFire setAutoRunUIState
    simp [hrun, hflag, hstop, hne, hexec]

def autoW : MState :=
  { baseMState with
    autoRunActive := true
    autoRunFlag := true
    autoBetsRemaining := some 1
    storedAutoSelections := [(0, 0)] }

theorem auto_bets_decrement_witness :
    (handleAutoRoundFinished autoW).autoBetsRemaining = some 0 ∧
    (handleAutoRoundFinished autoW).autoRunActive = true ∧
    (autoResetTimerFire (fun _ => false)
        (handleAutoRoundFinished autoW)).autoRunActive = false := by
  obtain ⟨h1, _, h3, h4⟩ := auto_bets_decrement (fun _ => false) autoW 1
    rfl rfl rfl rfl (by decide) rfl (by decide)
  exact ⟨h1, h3, h4.mpr rfl⟩

@[simp] theorem finalizeRound_roundActive (p : Bool) (s : MState) :
    (finalizeRound p s).roundActive = false := by
  unfold finalizeRound clearSelectionDelay setControlPanelBetMode
  by_cases hp : p <;> simp [hp]

@[simp] theorem finalizeRound_cashoutAvailable (p : Bool) (s : MState) :
    (finalizeRound p s).cashoutAvailable = false := by
  unfold finalizeRound clearSelectionDelay setControlPanelBetMode
  by_cases hp : p <;> simp [hp]

@[simp] theorem finalizeRound_selectionDelay (p : Bool) (s : MState) :
    (finalizeRound p s).selectionDelay = none := by
  unfold finalizeRound clearSelectionDelay setControlPanelBetMode
  by_cases hp : p <;> simp [hp]

theorem handleGameStateChange_delay_none (st : StateView) (s : MState)
    (h : s.selectionDelay = none) :
    (handleGameStateChange st s).selectionDelay = none := by
  unfold handleGameStateChange
  split_ifs <;> simp [h]

theorem handleGameStateChange_roundActive_false (st : StateView) (s : MState)
    (h : s.roundActive = false) :
    (handleGameStateChange st s).roundActive = false := by
  unfold handleGameStateChange
  split_ifs with h1 h2 <;> simp_all

theorem processEmissions_delay_none (es : List Emission) (s : MState)
    (h : s.selectionDelay = none) :
    (processEmissions s es).selectionDelay = none := by
  induction es generalizing s with
  | nil => simpa [processEmissions] using h
  | cons e rest ih =>
    cases e with
    | autoSelectionChange n =>
      have hrw : processEmissions s (Emission.autoSelectionChange n :: rest)
          = processEmissions (handleAutoSelectionChange n s) rest := rfl
      rw [hrw]
      exact ih _ (by simp [h])
    | stateChange v =>
      have hrw : processEmissions s (Emission.stateChange v :: rest)
          = processEmissions (handleGameStateChange v s) rest := rfl
      rw [hrw]
      exact ih _ (handleGameStateChange_delay_none v s h)

theorem processEmissions_roundActive_false (es : List Emission) (s : MState)
    (h : s.roundActive = false) :
    (processEmissions s es).roundActive = false := by
  induction es generalizing s with
  | nil => simpa [processEmissions] using h
  | cons e rest ih =>
    cases e with
    | autoSelectionChange n =>
      have hrw : processEmissions s (Emission.autoSelectionChange n :: rest)
          = processEmissions (handleAutoSelectionChange n s) rest := rfl
      rw [hrw]
      exact ih _ (by simp [h])
    | stateChange v =>
      have hrw : processEmissions s (Emission.stateChange v :: rest)
          = processEmissions (handleGameStateChange v s) rest := rfl
      rw [hrw]
      exact ih _ (handleGameStateChange_roundActive_false v s h)

theorem processEmissions_stored_of_mode (es : List Emission) (s : MState)
    (hm : s.controlPanelMode ≠ CPMode.auto) :
    (processEmissions s es).storedAutoSelections
      = s.storedAutoSelections := by
  induction es generalizing s with
  | nil => simp [processEmissions]
  | cons e rest ih =>
    cases e with
    | autoSelectionChange n =>
      have hrw : processEmissions s (Emission.autoSelectionChange n :: rest)
          = processEmissions (handleAutoSelectionChange n s) rest := rfl
      rw [hrw]
      rw [ih _ (by simpa using hm)]
      rw [handleAutoSelectionChange_stored]
      rw [if_neg (by simp [hm])]
    | stateChange v =>
      have hrw : processEmissions s (Emission.stateChange v :: rest)
          = processEmissions (handleGameStateChange v s) rest := rfl
      rw [hrw]
      rw [ih _ (by simpa using hm)]
      simp

theorem setAutoRunUIState_stored_of_mode (b : Bool) (s : MState)
    (hm : s.controlPanelMode ≠ CPMode.auto) :
    (setAutoRunUIState b s).storedAutoSelections
      = s.storedAutoSelections := by
  unfold setAutoRunUIState
  cases b with
  | true => simp
  | false =>
    rw [if_neg Bool.false_ne_true]
    rw [handleAutoSelectionChange_stored]
    rw [if_neg (by simp [hm])]

theorem gameReset_stored_of_mode (p : Bool) (s : MState)
    (hm : s.controlPanelMode ≠ CPMode.auto) :
    (gameReset p s).storedAutoSelections = s.storedAutoSelections := by
  unfold gameReset
  rw [processEmissions_stored_of_mode _ _ (by simpa using hm)]

theorem gameClearAutoSelections_stored_of_mode (s : MState)
    (hm : s.controlPanelMode ≠ CPMode.auto) :
    (gameClearAutoSelections s).storedAutoSelections
      = s.storedAutoSelections := by
  unfold gameClearAutoSelections
  rw [processEmissions_stored_of_mode _ _ (by simpa using hm)]

@[simp] theorem prepareForNewRoundState_true_game (s : MState) :
    (prepareForNewRoundState true s).game = s.game := by
  unfold prepareForNewRoundState clearSelectionDelay setControlPanelBetMode
  by_cases hm : s.controlPanelMode ≠ CPMode.auto <;> simp [hm]

@[simp] theorem prepareForNewRoundState_true_delay (s : MState) :
    (prepareForNewRoundState true s).selectionDelay = none := by
  unfold prepareForNewRoundState clearSelectionDelay setControlPanelBetMode
  by_cases hm : s.controlPanelMode ≠ CPMode.auto <;> simp [hm]

theorem clearAutoSelections_fst_of_empty (g : GameState) (b : Bool)
    (h : g.autoSelectionOrder = []) :
    (clearAutoSelections g b).1 = g := by
  unfold clearAutoSelections
  rw [if_pos (by simp [h])]

theorem clearAutoSelections_fst_order (g : GameState) (b : Bool) :
    (clearAutoSelections g b).1.autoSelectionOrder = [] := by
  unfold clearAutoSelections
  by_cases h : g.autoSelectionOrder.isEmpty
  · rw [if_pos h]
    simpa [List.isEmpty_iff] using h
  · rw [if_neg h]

theorem clearAutoSelections_fst_grid (g : GameState) (b : Bool) :
    (clearAutoSelections g b).1.grid = g.grid := by
  unfold clearAutoSelections
  by_cases h : g.autoSelectionOrder.isEmpty <;> simp [h]

theorem buildBoard_fst_tiles (g : GameState) (e : Bool) :
    (buildBoard g e).1.tiles = freshTiles g.grid := by
  unfold buildBoard clearSelection
  rcases hcs : clearAutoSelections { g with
      waitingForChoice := false
      selectedTile := none } e with ⟨g1, e1⟩
  have hgrid : g1.grid = g.grid := by
    have := clearAutoSelections_fst_grid { g with
      waitingForChoice := false
      selectedTile := none } e
    rw [hcs] at this
    exact this
  simp [hcs, hgrid]

theorem buildBoard_fst_order (g : GameState) (e : Bool) :
    (buildBoard g e).1.autoSelectionOrder = [] := by
  unfold buildBoard clearSelection
  rcases hcs : clearAutoSelections { g with
      waitingForChoice := false
      selectedTile := none } e with ⟨g1, e1⟩
  have horder : g1.autoSelectionOrder = [] := by
    have := clearAutoSelections_fst_order { g with
      waitingForChoice := false
      selectedTile := none } e
    rw [hcs] at this
    exact this
  simp [hcs, horder]

theorem buildBoard_fst_grid (g : GameState) (e : Bool) :
    (buildBoard g e).1.grid = g.grid := by
  unfold buildBoard clearSelection
  rcases hcs : clearAutoSelections { g with
      waitingForChoice := false
      selectedTile := none } e with ⟨g1, e1⟩
  have hgrid : g1.grid = g.grid := by
    have := clearAutoSelections_fst_grid { g with
      waitingForChoice := false
      selectedTile := none } e
    rw [hcs] at this
    exact this
  simp [hcs, hgrid]

theorem reset_false_board (g : GameState) :
    (reset g false).1.tiles = freshTiles g.grid ∧
    (reset g false).1.autoSelectionOrder = [] ∧
    (reset g false).1.grid = g.grid := by
  rw [reset_eq_false]
  refine ⟨?_, ?_, ?_⟩
  · rw [buildBoard_fst_tiles]
    rfl
  · rw [buildBoard_fst_order]
  · rw [buildBoard_fst_grid]
    rfl

theorem stopAutoBetProcess_manual (s : MState)
    (hm : s.controlPanelMode = CPMode.manual)
    (hw : s.autoRunActive = true) :
    (stopAutoBetProcess false s).autoRunActive = false ∧
    (stopAutoBetProcess false s).autoResetScheduled = false ∧
    (stopAutoBetProcess false s).selectionDelay = none ∧
    (stopAutoBetProcess false s).roundActive = false ∧
    (stopAutoBetProcess false s).storedAutoSelections
      = s.storedAutoSelections ∧
    (stopAutoBetProcess false s).manualRoundNeedsReset
      = s.manualRoundNeedsReset ∧
    (stopAutoBetProcess false s).controlPanelMode = CPMode.manual ∧
    (stopAutoBetProcess false s).game = (reset s.game false).1 := by
  unfold stopAutoBetProcess
  by_cases hd : s.selectionDelay = none <;>
    simp [hd, hw, hm, setAutoRunUIState_stored_of_mode,
      gameReset_stored_of_mode, gameReset, processEmissions_delay_none,
      processEmissions_roundActive_false, processEmissions_stored_of_mode]

/-- Switching the panel from auto to manual while the session runs: the
session stops, nothing further is scheduled, the round is finalized, the
selections captured at switch time are stored, and the board is reset. -/
theorem modeChange_manual (s : MState)
    (hmode : s.controlPanelMode = CPMode.auto)
    (hrun : s.autoRunActive = true) :
    (modeChangeEvent CPMode.manual s).autoRunActive = false ∧
    (modeChangeEvent CPMode.manual s).autoResetScheduled = false ∧
    (modeChangeEvent CPMode.manual s).selectionDelay = none ∧
    (modeChangeEvent CPMode.manual s).roundActive = false ∧
    (modeChangeEvent CPMode.manual s).storedAutoSelections
      = s.game.autoSelectionOrder ∧
    (modeChangeEvent CPMode.manual s).manualRoundNeedsReset
      = s.manualRoundNeedsReset ∧
    (modeChangeEvent CPMode.manual s).controlPanelMode = CPMode.manual ∧
    (modeChangeEvent CPMode.manual s).game = (reset s.game false).1 := by
  obtain ⟨h1, h2, h3, h4, h5, h6, h7, h8⟩ := stopAutoBetProcess_manual
    { s with
      storedAutoSelections := s.game.autoSelectionOrder
      controlPanelMode := CPMode.manual
      autoRunActive := true } rfl rfl
  have hord : ((reset s.game false).1).autoSelectionOrder = [] :=
    (reset_false_board s.game).2.1
  unfold modeChangeEvent getAutoSelectionCoordinates
  simp [hmode, hrun, h1, h2, h3, h4, h5, h6, h7, h8,
    gameClearAutoSelections_stored_of_mode, clearAutoSelections_fst_of_empty,
    hord, processEmissions_delay_none, processEmissions_roundActive_false]

/-- Marking helper: the tiles whose coordinates appear in `done` carry the
auto-selection flags. -/
def markSelected (done : List (Nat × Nat)) (t : Tile) : Tile :=
  if (t.row, t.col) ∈ done then { t with isAutoSelected := true, taped := true }
  else t

theorem markSelected_row (done : List (Nat × Nat)) (t : Tile) :
    (markSelected done t).row = t.row := by
  unfold markSelected
  split <;> rfl

theorem markSelected_col (done : List (Nat × Nat)) (t : Tile) :
    (markSelected done t).col = t.col := by
  unfold markSelected
  split <;> rfl

theorem markSelected_nil (t : Tile) : markSelected [] t = t := by
  unfold markSelected
  simp

theorem updateTile_map_mark (l : List Tile) (done : List (Nat × Nat))
    (r c : Nat) (h : (r, c) ∉ done) :
    updateTile (l.map (markSelected done)) r c
        (fun t => { t with isAutoSelected := true, taped := true })
      = l.map (markSelected (done ++ [(r, c)])) := by
  unfold updateTile
  rw [List.map_map]
  apply List.map_congr_left
  intro t _
  simp only [Function.comp_apply, markSelected, List.mem_append,
    List.mem_singleton]
  by_cases hrc : t.row = r ∧ t.col = c
  · have hmem : ¬((t.row, t.col) ∈ done) := by
      rw [hrc.1, hrc.2]
      exact h
    rw [if_neg hmem]
    rw [if_pos (by simp [hrc.1, hrc.2])]
    rw [if_pos (Or.inr (by simp [hrc.1, hrc.2]))]
  · by_cases hd : (t.row, t.col) ∈ done
    · rw [if_pos hd]
      have hcond : (({ t with isAutoSelected := true, taped := true }
            : Tile).row == r
          && ({ t with isAutoSelected := true, taped := true }
            : Tile).col == c) = false := by
        rcases not_and_or.mp hrc with h' | h' <;> simp [h']
      simp only [hcond, Bool.false_eq_true, if_false]
      rw [if_pos (Or.inl hd)]
    · rw [if_neg hd]
      have hcond : ((t : Tile).row == r && (t : Tile).col == c)
          = false := by
        rcases not_and_or.mp hrc with h' | h' <;> simp [h']
      have hne : ¬((t.row, t.col) ∈ done ∨ (t.row, t.col) = (r, c)) := by
        push_neg
        refine ⟨hd, ?_⟩
        simp only [ne_eq, Prod.mk.injEq, not_and]
        tauto
      simp only [hcond, Bool.false_eq_true, if_false]
      rw [if_neg hne]

theorem find_beq_range (m c0 : Nat) (h : c0 < m) :
    (List.range m).find? (fun c => c == c0) = some c0 := by
  induction m with
  | zero => omega
  | succ m ih =>
    rw [List.range_succ, List.find?_append]
    by_cases hc : c0 < m
    · rw [ih hc]
      rfl
    · have hcm : c0 = m := by omega
      have hl : (List.range m).find? (fun c => c == c0) = none := by
        rw [List.find?_eq_none]
        intro x hx
        have : x < m := List.mem_range.mp hx
        simp only [beq_iff_eq]
        omega
      rw [hl]
      subst hcm
      simp

theorem findTile_map_mark (l : List Tile) (done : List (Nat × Nat))
    (r c : Nat) :
    findTile (l.map (markSelected done)) r c
      = (findTile l r c).map (markSelected done) := by
  unfold findTile
  rw [List.find?_map]
  have hp : ((fun t => t.row == r && t.col == c) ∘ markSelected done)
      = (fun t => t.row == r && t.col == c) := by
    funext t
    simp [Function.comp, markSelected_row, markSelected_col]
  rw [hp]

theorem find_row_ne (cols r' r c : Nat) (h : r' ≠ r) :
    ((List.range cols).map (fun c' => mkTile r' c')).find?
        (fun t => t.row == r && t.col == c) = none := by
  rw [List.find?_eq_none]
  intro t ht
  obtain ⟨c', _, rfl⟩ := List.mem_map.mp ht
  simp [mkTile, h]

theorem find_row_eq (cols r c : Nat) (hc : c < cols) :
    ((List.range cols).map (fun c' => mkTile r c')).find?
        (fun t => t.row == r && t.col == c) = some (mkTile r c) := by
  rw [List.find?_map]
  have hp : ((fun t => t.row == r && t.col == c)
      ∘ fun c' => mkTile r c') = fun c' => c' == c := by
    funext c'
    simp [mkTile]
  rw [hp, find_beq_range cols c hc]
  rfl

theorem find_rows (rows cols r c : Nat) (hr : r < rows) (hc : c < cols) :
    ((List.range rows).flatMap (fun r' => (List.range cols).map
        (fun c' => mkTile r' c'))).find?
        (fun t => t.row == r && t.col == c) = some (mkTile r c) := by
  induction rows with
  | zero => omega
  | succ m ih =>
    rw [List.range_succ, List.flatMap_append, List.find?_append]
    by_cases hrm : r < m
    · rw [ih hrm]
      rfl
    · have hrem : r = m := by omega
      have hleft : ((List.range m).flatMap (fun r' => (List.range cols).map
          (fun c' => mkTile r' c'))).find?
          (fun t => t.row == r && t.col == c) = none := by
        rw [List.find?_eq_none]
        intro t ht
        obtain ⟨r', hr', htm⟩ := List.mem_flatMap.mp ht
        obtain ⟨c', _, rfl⟩ := List.mem_map.mp htm
        have : r' < m := List.mem_range.mp hr'
        simp only [mkTile, Bool.and_eq_true, beq_iff_eq]
        intro hcontra
        omega
      rw [hleft]
      have hsingle : ([m].flatMap (fun r' => (List.range cols).map
          (fun c' => mkTile r' c')))
          = (List.range cols).map (fun c' => mkTile m c') := by
        simp
      rw [hsingle, ← hrem, find_row_eq cols r c hc]
      rfl

theorem findTile_freshTiles (n r c : Nat) (hr : r < n) (hc : c < n) :
    findTile (freshTiles n) r c = some (mkTile r c) := by
  unfold findTile freshTiles
  exact find_rows n n r c hr hc

set_option maxHeartbeats 1000000 in
theorem applyGo_mark (n : Nat) (sel : List (Nat × Nat)) :
    ∀ (g : GameState) (done : List (Nat × Nat)),
    g.tiles = (freshTiles n).map (markSelected done) →
    g.autoSelectionOrder = done →
    (∀ rc ∈ sel, rc.1 < n ∧ rc.2 < n) →
    (∀ rc ∈ sel, rc ∉ done) →
    sel.Nodup →
    (applyAutoSelectionsGo g sel).autoSelectionOrder = done ++ sel ∧
    (applyAutoSelectionsGo g sel).tiles
      = (freshTiles n).map (markSelected (done ++ sel)) := by
  induction sel with
  | nil =>
    intro g done hg ho _ _ _
    constructor
    · simpa [applyAutoSelectionsGo] using ho
    · simpa [applyAutoSelectionsGo] using hg
  | cons rc rest ih =>
    intro g done hg ho hvalid hdisj hnodup
    obtain ⟨hr, hc⟩ := hvalid rc (List.mem_cons_self rc rest)
    have hnd : rc ∉ done := hdisj rc (List.mem_cons_self rc rest)
    have hfind : findTile g.tiles rc.1 rc.2
        = some (markSelected done (mkTile rc.1 rc.2)) := by
      rw [hg, findTile_map_mark, findTile_freshTiles n rc.1 rc.2 hr hc]
      rfl
    have hmark : markSelected done (mkTile rc.1 rc.2) = mkTile rc.1 rc.2 := by
      unfold markSelected
      rw [if_neg]
      simpa using hnd
    rw [hmark] at hfind
    have hstep : (setAutoTileSelected g rc true false).1
        = { g with
            tiles := updateTile g.tiles rc.1 rc.2
              (fun t => { t with isAutoSelected := true, taped := true })
            autoSelectionOrder := g.autoSelectionOrder ++ [rc] } := by
      unfold setAutoTileSelected
      simp [hfind, mkTile]
    have hgo : applyAutoSelectionsGo g (rc :: rest)
        = applyAutoSelectionsGo (setAutoTileSelected g rc true false).1
            rest := by
      simp only [applyAutoSelectionsGo, hfind]
      simp [mkTile]
    rw [hgo, hstep]
    have htiles : ({ g with
        tiles := updateTile g.tiles rc.1 rc.2
          (fun t => { t with isAutoSelected := true, taped := true })
        autoSelectionOrder := g.autoSelectionOrder ++ [rc] }
          : GameState).tiles
        = (freshTiles n).map (markSelected (done ++ [rc])) := by
      show updateTile g.tiles rc.1 rc.2
          (fun t => { t with isAutoSelected := true, taped := true })
        = (freshTiles n).map (markSelected (done ++ [rc]))
      rw [hg]
      have := updateTile_map_mark (freshTiles n) done rc.1 rc.2
        (by simpa using hnd)
      simpa using this
    have horder : ({ g with
        tiles := updateTile g.tiles rc.1 rc.2
          (fun t => { t with isAutoSelected := true, taped := true })
        autoSelectionOrder := g.autoSelectionOrder ++ [rc] }
          : GameState).autoSelectionOrder
        = done ++ [rc] := by
      show g.autoSelectionOrder ++ [rc] = done ++ [rc]
      rw [ho]
    have hvalid' : ∀ rc' ∈ rest, rc'.1 < n ∧ rc'.2 < n := by
      intro rc' h'
      exact hvalid rc' (List.mem_cons_of_mem _ h')
    have hdisj' : ∀ rc' ∈ rest, rc' ∉ done ++ [rc] := by
      intro rc' h'
      rw [List.mem_append, List.mem_singleton]
      push_neg
      refine ⟨hdisj rc' (List.mem_cons_of_mem _ h'), ?_⟩
      intro hcontra
      subst hcontra
      exact (List.nodup_cons.mp hnodup).1 h'
    have hnodup' : rest.Nodup := (List.nodup_cons.mp hnodup).2
    obtain ⟨ha, hb⟩ := ih _ (done ++ [rc]) htiles horder hvalid' hdisj'
      hnodup'
    constructor
    · rw [ha, List.append_assoc, List.singleton_append]
    · rw [hb, List.append_assoc, List.singleton_append]

theorem applyAuto_fresh (n : Nat) (g : GameState) (sel : List (Nat × Nat))
    (hg : g.tiles = freshTiles n)
    (horder : g.autoSelectionOrder = [])
    (hne : sel ≠ [])
    (hvalid : ∀ rc ∈ sel, rc.1 < n ∧ rc.2 < n)
    (hnodup : sel.Nodup) :
    (applyAutoSelectionsFromCoordinates g sel true).1.autoSelectionOrder
      = sel := by
  unfold applyAutoSelectionsFromCoordinates
  rw [if_neg (by simpa [List.isEmpty_iff] using hne)]
  show (applyAutoSelectionsGo (clearAutoSelections g false).1
      sel).autoSelectionOrder = sel
  rw [clearAutoSelections_fst_of_empty g false horder]
  have hmark0 : g.tiles = (freshTiles n).map (markSelected []) := by
    rw [hg]
    have : (freshTiles n).map (markSelected [])
        = (freshTiles n).map (fun t => t) := by
      apply List.map_congr_left
      intro t _
      exact markSelected_nil t
    rw [this]
    exact (List.map_id' _).symm
  obtain ⟨ha, _⟩ := applyGo_mark n sel g [] hmark0 horder hvalid
    (by simp) hnodup
  simpa using ha

theorem applyAuto_snd_nonempty (g : GameState) (coords : List (Nat × Nat))
    (h : coords ≠ []) :
    (applyAutoSelectionsFromCoordinates g coords true).2
      = [Emission.autoSelectionChange
          ((applyAutoSelectionsFromCoordinates g coords
            true).1).autoSelectionOrder.length] := by
  unfold applyAutoSelectionsFromCoordinates
  rw [if_neg (by simpa [List.isEmpty_iff] using h)]
  rfl

theorem processEmissions_single (U : MState) (m : Nat) :
    processEmissions U [Emission.autoSelectionChange m]
      = handleAutoSelectionChange m U := rfl

/-- Switching back to auto mode from an idle manual state with a fresh
board re-applies the stored selections. -/
theorem modeChange_auto_back (t : MState) (n : Nat)
    (sel : List (Nat × Nat))
    (m1 : t.autoRunActive = false)
    (m4 : t.roundActive = false)
    (m5 : t.storedAutoSelections = sel)
    (m6 : t.manualRoundNeedsReset = false)
    (m7 : t.controlPanelMode = CPMode.manual)
    (m8t : t.game.tiles = freshTiles n)
    (m8o : t.game.autoSelectionOrder = [])
    (hne : sel ≠ [])
    (hvalid : ∀ rc ∈ sel, rc.1 < n ∧ rc.2 < n)
    (hnodup : sel.Nodup) :
    (modeChangeEvent CPMode.auto t).game.autoSelectionOrder = sel ∧
    (modeChangeEvent CPMode.auto t).storedAutoSelections = sel := by
  have hPg : (prepareForNewRoundState true
      { t with controlPanelMode := CPMode.auto }).game = t.game := by
    rw [prepareForNewRoundState_true_game]
  have hPs : (prepareForNewRoundState true
      { t with controlPanelMode := CPMode.auto }).storedAutoSelections
      = sel := by
    rw [prepareForNewRoundState_true_stored]
    exact m5
  have happly : (applyAutoSelectionsFromCoordinates
      (prepareForNewRoundState true
        { t with controlPanelMode := CPMode.auto }).game sel
      true).1.autoSelectionOrder = sel := by
    rw [hPg]
    exact applyAuto_fresh n t.game sel m8t m8o hne hvalid hnodup
  have hstored5 : (gameApplyAutoSelections sel
      (prepareForNewRoundState true
        { t with controlPanelMode := CPMode.auto })).storedAutoSelections
      = sel := by
    unfold gameApplyAutoSelections
    rw [applyAuto_snd_nonempty _ _ hne]
    rw [processEmissions_single]
    rw [handleAutoSelectionChange_stored]
    split_ifs with hcond
    · exact happly
    · exfalso
      apply hcond
      refine ⟨by simp, Or.inl ?_⟩
      rw [happly]
      exact List.length_pos.mpr hne
  have hie : sel.isEmpty = false := by simpa [List.isEmpty_iff] using hne
  have hbig : modeChangeEvent CPMode.auto t
      = handleAutoSelectionChange
          (List.length
            (gameApplyAutoSelections sel
              (prepareForNewRoundState true
                { t with
                  controlPanelMode := CPMode.auto })).storedAutoSelections)
          (gameApplyAutoSelections sel
            (prepareForNewRoundState true
              { t with controlPanelMode := CPMode.auto })) := by
    unfold modeChangeEvent
    simp [m7, m6, m4, m1, m5, hie]
  constructor
  · rw [hbig]
    rw [handleAutoSelectionChange_game]
    rw [gameApplyAutoSelections_game]
    exact happly
  · rw [hbig]
    rw [handleAutoSelectionChange_stored]
    split_ifs with hcond
    · rw [gameApplyAutoSelections_game]
      exact happly
    · exfalso
      apply hcond
      refine ⟨by simp, Or.inl ?_⟩
      rw [hstored5]
      exact List.length_pos.mpr hne

/-- C7: switching the control panel from auto to manual while an auto-play
session runs stops the session at once (`autoRunActive = false`, no reset
timer or selection timer pending) and finalizes the round
(`roundActive = false`); the selections captured at switch time survive in
`storedAutoSelections`, and switching back to auto re-applies exactly that
set to the (freshly reset) board and to the stored set. -/
theorem mode_switch_preserves_selections (s : MState)
    (sel : List (Nat × Nat))
    (hmode : s.controlPanelMode = CPMode.auto)
    (hrun : s.autoRunActive = true)
    (hmr : s.manualRoundNeedsReset = false)
    (hsel : s.game.autoSelectionOrder = sel)
    (hne : sel ≠ [])
    (hvalid : ∀ rc ∈ sel, rc.1 < s.game.grid ∧ rc.2 < s.game.grid)
    (hnodup : sel.Nodup) :
    (modeChangeEvent CPMode.manual s).autoRunActive = false ∧
    (modeChangeEvent CPMode.manual s).autoResetScheduled = false ∧
    (modeChangeEvent CPMode.manual s).selectionDelay = none ∧
    (modeChangeEvent CPMode.manual s).roundActive = false ∧
    (modeChangeEvent CPMode.manual s).storedAutoSelections = sel ∧
    (modeChangeEvent CPMode.auto
      (modeChangeEvent CPMode.manual s)).game.autoSelectionOrder = sel ∧
    (modeChangeEvent CPMode.auto
      (modeChangeEvent CPMode.manual s)).storedAutoSelections = sel := by
  obtain ⟨m1, m2, m3, m4, m5, m6, m7, m8⟩ := modeChange_manual s hmode hrun
  rw [hsel] at m5
  rw [hmr] at m6
  have hback := modeChange_auto_back (modeChangeEvent CPMode.manual s)
    s.game.grid sel m1 m4 m5 m6 m7
    (by rw [m8]; exact (reset_false_board s.game).1)
    (by rw [m8]; exact (reset_false_board s.game).2.1)
    hne hvalid hnodup
  exact ⟨m1, m2, m3, m4, m5, hback.1, hback.2⟩

def sW : MState :=
  { baseMState with
    autoRunActive := true
    game := { createGameModel 5 3 with autoSelectionOrder := [(0, 0)] } }

theorem mode_switch_preserves_selections_witness :
    (modeChangeEvent CPMode.manual sW).autoRunActive = false ∧
    (modeChangeEvent CPMode.manual sW).storedAutoSelections = [(0, 0)] ∧
    (modeChangeEvent CPMode.auto
      (modeChangeEvent CPMode.manual sW)).game.autoSelectionOrder
        = [(0, 0)] ∧
    (modeChangeEvent CPMode.auto
      (modeChangeEvent CPMode.manual sW)).storedAutoSelections
        = [(0, 0)] := by
  obtain ⟨h1, _, _, _, h5, h6, h7⟩ := mode_switch_preserves_selections sW
    [(0, 0)] rfl rfl rfl rfl (by decide) (by decide) (by decide)
  exact ⟨h1, h5, h6, h7⟩
